import Mathlib

/-!
Verification of the Order Transaction Processor of the pos-node repository
(`src/services/pos.services.js`), as a shallow embedding in Lean 4.

The SQL database visible to `processOrder` is modelled as lists of rows, one
list per table, together with the identity seeds of the two tables whose key
is generated by the database (`tblOrder_M.OrderNo` and `tblCustomer.CustCode`).
Every `await transaction.request()...query(...)` round trip of the source is
one `sqlRun` step of a state-plus-exceptions monad; a fault-injection fuel
counter lets any single round trip raise an infrastructure error, which is how
the rollback claims quantify over "any sub-step throws".

Conventions used throughout (noted where they matter):
* a JavaScript string field that may be `undefined`/`null` is modelled as a
  `String` where the empty string stands for the absent value (both are falsy
  and behave identically in every expression the source applies to them);
* a numeric field fed through `parseInt`/`parseFloat` is modelled as an
  `Option` value, `none` standing for a failed parse (`NaN`);
* `x || y` on strings is `jsOrStr`, on numbers `jsOrInt`; where the source
  writes `v || 0` on a value that is already a parsed number (so the fallback
  can only map `0` to `0`) the plain value is used.
-/

namespace PosNode

/-! ## Data model: the table rows touched by processOrder -/

/-- Row of `tblOrder_M` (order header).  The source column `Prefix` is called
`Prfx` here; `Pr` is the concatenation column.  `SeatId` is nullable. -/
structure OrderM where
  OrderNo : Int
  EDate : String
  Time : String
  Options : Int
  CustId : Int
  CustName : String
  Flat : String
  Address : String
  Contact : String
  DelBoy : Int
  TableId : Int
  TableNo : String
  Remarks : String
  Total : Rat
  Saled : String
  Status : String
  Prfx : String
  Pr : String
  SeatId : Option Int
deriving DecidableEq, Repr

/-- Row of `tblOrder_D` (order line); also the shape of `tblKot_D`. -/
structure OrderD where
  OrderNo : Int
  SlNo : Int
  ItemCode : Int
  ItemName : String
  Qty : Rat
  Rate : Rat
  Amount : Rat
  Cost : Rat
  Vat : Rat
  VatAmt : Rat
  TaxLedger : Int
  Arabic : String
  Notes : String
deriving DecidableEq, Repr

/-- Row of `tblPrinter`; also the shape of `tblKotPrinter`. -/
structure PrinterRow where
  OrderNo : Int
  SlNo : Int
  ItemId : Int
  Printer : String
deriving DecidableEq, Repr

/-- Row of `tblKot_M` (kitchen-ticket header; `OrderNo` is supplied, not
generated, and there is no `Prefix`/`Pr`/`SeatId` column in the insert). -/
structure KotM where
  OrderNo : Int
  EDate : String
  Time : String
  Options : Int
  CustId : Int
  CustName : String
  Flat : String
  Address : String
  Contact : String
  DelBoy : Int
  TableId : Int
  TableNo : String
  Remarks : String
  Total : Rat
  Saled : String
  Status : String
deriving DecidableEq, Repr

/-- Row of `tblCustomer` (the columns the core reads or writes; the insert also
fills constant columns which do not influence any later read). -/
structure CustomerRow where
  CustCode : Int
  CustName : String
  Add1 : String
  ContactNo : String
  Phone : String
  Fax : String
  Active : Int
deriving DecidableEq, Repr

/-- Row of `tblSeat`.  `SeatName` is the source column `Seat`. -/
structure SeatRow where
  SeatId : Int
  TableId : Int
  SeatName : String
  Status : Int
deriving DecidableEq, Repr

/-- Row of `tblTable` (only the columns processOrder touches). -/
structure TableRow where
  TableId : Int
  Status : Int
deriving DecidableEq, Repr

/-- Row of `tblOrder_Seats`.  `SeatName` is the source column `Seat`. -/
structure OrderSeatRow where
  OrderNo : Int
  SeatName : String
  SeatId : Int
  TableId : Int
  Status : Int
  Counter : String
deriving DecidableEq, Repr

/-- Row of `tblTemp_Seats` (legacy staged-seat fallback). -/
structure TempSeatRow where
  SeatName : String
  SeatId : Int
  TableId : Int
  Status : Int
  Counter : String
deriving DecidableEq, Repr

/-- Row of `tblItemMaster` (only the printer-routing column is read;
a SQL NULL `PrinteName` is modelled as `""`, which the source's
`?.PrinteName || ""` collapses to the same value). -/
structure ItemMasterRow where
  ItemId : Int
  PrinteName : String
deriving DecidableEq, Repr

/-- The database state.  `orderIdentity` / `custIdentity` are the identity
seeds: the next key the store generates for `tblOrder_M.OrderNo` /
`tblCustomer.CustCode`.  `tblTempOrder_M`/`tblTempOrder_D` are only ever
deleted from by `OrderNo`, so only the order numbers of their rows matter. -/
structure DB where
  tblOrder_M : List OrderM
  tblOrder_D : List OrderD
  tblPrinter : List PrinterRow
  tblKot_M : List KotM
  tblKot_D : List OrderD
  tblKotPrinter : List PrinterRow
  tblCustomer : List CustomerRow
  tblSeat : List SeatRow
  tblTable : List TableRow
  tblOrder_Seats : List OrderSeatRow
  tblTemp_Seats : List TempSeatRow
  tblTempOrder_M : List Int
  tblTempOrder_D : List Int
  tblItemMaster : List ItemMasterRow
  orderIdentity : Int
  custIdentity : Int
deriving DecidableEq, Repr

/-- The environment variables the processor reads (`process.env.*`); an unset
variable is the empty string, which is falsy exactly like `undefined` under
the `||` fallbacks the source applies. -/
structure Env where
  ORDER_PRINTER : String
  KOT_PRINTER : String
  COUNTER_NAME : String
deriving DecidableEq, Repr

/-! ## JavaScript helpers -/

/-- `a || b` for strings: the empty string is the only falsy string. -/
def jsOrStr (a b : String) : String := if a = "" then b else a

/-- `a || b` for already-parsed integers: `0` is the only falsy value. -/
def jsOrInt (a b : Int) : Int := if a = 0 then b else a

/-- `contact.replace(/\D/g, '').padStart(10, '0').slice(-10)`
(pos.services.js line 338): keep the digits, left-pad with zeros to width 10,
keep the last 10 characters. -/
def normalizeContact (contact : String) : String :=
  let digits := contact.data.filter Char.isDigit
  let padded := List.replicate (10 - digits.length) '0' ++ digits
  String.mk (padded.drop (padded.length - 10))

/-- `option === 1 ? "Order" : option === 2 ? "DineIn" : "TakeAway"`
(pos.services.js lines 327-328). -/
def orderTypeOf (option : Int) : String :=
  if option = 1 then "Order" else if option = 2 then "DineIn" else "TakeAway"

/-- Occurrence of `pat` as a contiguous run of `l` (helper for `includesSub`). -/
def includesChars (pat : List Char) : List Char → Bool
  | [] => decide (pat = [])
  | c :: rest => pat.isPrefixOf (c :: rest) || includesChars pat rest

/-- Substring test (JavaScript `String.prototype.includes`). -/
def includesSub (s pat : String) : Bool := includesChars pat.data s.data

/-- ASCII lowercasing (JavaScript `String.prototype.toLowerCase`; the status
strings it is applied to are ASCII). -/
def jsToLower (s : String) : String := String.mk (s.data.map Char.toLower)

/-! ## Errors and the transactional monad -/

/-- An error travelling up to the coordinator's catch block.  `app` is an
error built by `createAppError` (which sets `statusCode` and `isOperational`
but leaves `name` as `"Error"` and never sets a `status` field); `infra` is a
driver error carrying a `code` such as `"EREQUEST"`. -/
inductive JsError where
  | app (message : String) (statusCode : Nat)
  | infra (code : String) (message : String)
deriving DecidableEq, Repr

/-- State threaded through one transaction: the database plus the
fault-injection fuel (`some k` makes the k-th subsequent SQL round trip
fail with a driver error; `none` injects no failure). -/
structure St where
  db : DB
  fuel : Option Nat
deriving DecidableEq, Repr

/-- The monad of one transactional session: state plus exceptions. -/
def M (α : Type) : Type := St → Except JsError (α × St)

instance : Monad M where
  pure a := fun s => .ok (a, s)
  bind x f := fun s =>
    match x s with
    | .ok (a, s') => f a s'
    | .error e => .error e

/-- The injected infrastructure failure (a request-level driver error). -/
def injectedFault : JsError := .infra "EREQUEST" "Injected request failure"

/-- One `await transaction.request()...query(...)` round trip: consult the
fault-injection fuel, then apply the query's effect to the database. -/
def sqlRun {α : Type} (f : DB → α × DB) : M α := fun s =>
  match s.fuel with
  | some 0 => .error injectedFault
  | some (k + 1) => .ok ((f s.db).1, { db := (f s.db).2, fuel := some k })
  | none => .ok ((f s.db).1, { db := (f s.db).2, fuel := none })

/-- `throw` of a JavaScript error. -/
def throwErr {α : Type} (e : JsError) : M α := fun _ => .error e

/-! ## The individual queries, translated -/

/-- `SELECT ISNULL(MAX(OrderNo), 0) + 1 AS MaxId FROM tblOrder_M`:
the fold computing `MAX(OrderNo)` (none when the table is empty). -/
def maxOrderNoOpt (l : List Int) : Option Int :=
  l.foldl (fun acc n =>
    match acc with
    | none => some n
    | some m => some (max m n)) none

/-- `getMaxOrderId` (pos.services.js lines 268-272). -/
def maxOrderId (db : DB) : Int :=
  (maxOrderNoOpt (db.tblOrder_M.map (·.OrderNo))).getD 0 + 1

/-- The re-derivation query of the NEW branch (lines 474-487):
`SELECT OrderNo FROM tblOrder_M WHERE EDate = @EDate AND Time = @Time AND
CustId = @CustId ORDER BY OrderNo DESC`, then `recordset[0].OrderNo` — the
greatest matching order number, none when nothing matches. -/
def deriveOrderNo (db : DB) (date time : String) (custId : Int) : Option Int :=
  maxOrderNoOpt ((db.tblOrder_M.filter (fun r =>
    r.EDate == date && r.Time == time && r.CustId == custId)).map (·.OrderNo))

/-- The WHERE clause of the customer-existence check (lines 342-349). -/
def custMatches (name nc : String) (c : CustomerRow) : Bool :=
  (c.ContactNo == nc || c.Phone == nc) && c.CustName == name && c.Active == 1

/-- `TOP 1 ... ORDER BY CustCode DESC`: the matching row with the greatest
`CustCode` (first such row on a tie, which cannot arise for a generated key). -/
def topByCustCodeDesc (l : List CustomerRow) : Option CustomerRow :=
  l.foldl (fun acc c =>
    match acc with
    | none => some c
    | some b => if b.CustCode < c.CustCode then some c else some b) none

/-- The customer-existence check of `handleCustomerManagement`. -/
def customerLookup (db : DB) (name nc : String) : Option CustomerRow :=
  topByCustCodeDesc (db.tblCustomer.filter (custMatches name nc))

/-- Effect of the dynamic `UPDATE dbo.tblCustomer SET ... WHERE CustCode =
@CustCode` (lines 387-395) on one row: each `some` argument is a field of the
SET clause. -/
def patchCustomer (code : Int) (newContact newPhone newAdd : Option String)
    (c : CustomerRow) : CustomerRow :=
  if c.CustCode == code then
    { c with
      ContactNo := newContact.getD c.ContactNo
      Phone := newPhone.getD c.Phone
      Add1 := newAdd.getD c.Add1 }
  else c

/-- The dynamic customer UPDATE applied to the whole table. -/
def applyCustomerUpdate (code : Int) (newContact newPhone newAdd : Option String)
    (l : List CustomerRow) : List CustomerRow :=
  l.map (patchCustomer code newContact newPhone newAdd)

/-- `INSERT INTO dbo.tblCustomer ...; SELECT SCOPE_IDENTITY() AS CustCode`
(lines 399-418): insert an active row under the next generated key and
return that key. -/
def insertCustomer (name add1 nc fax : String) (db : DB) : Int × DB :=
  (db.custIdentity,
   { db with
     tblCustomer := db.tblCustomer ++
       [{ CustCode := db.custIdentity, CustName := name, Add1 := add1,
          ContactNo := nc, Phone := nc, Fax := fax, Active := 1 }],
     custIdentity := db.custIdentity + 1 })

/-- `SELECT PrinteName FROM tblItemMaster WHERE ItemId = @ItemId` followed by
`recordset[0]?.PrinteName || ""` (lines 541-550), as a function of the
`tblItemMaster` rows. -/
def printeLookup (master : List ItemMasterRow) (itemId : Int) : String :=
  match master.find? (fun r => r.ItemId == itemId) with
  | some r => r.PrinteName
  | none => ""

/-- `SELECT Seat, SeatId, TableId FROM tblSeat WHERE SeatId = @SeatId AND
TableId = @TableId`, first row if any (lines 595-604), as a function of the
`tblSeat` rows. -/
def seatFind (seats : List SeatRow) (seatId tableId : Int) : Option SeatRow :=
  seats.find? (fun s => s.SeatId == seatId && s.TableId == tableId)

/-- `UPDATE tblSeat SET Status = 1 WHERE SeatId = @SeatId AND TableId = @TableId`. -/
def occupySeat (seatId tableId : Int) (l : List SeatRow) : List SeatRow :=
  l.map fun s =>
    if s.SeatId == seatId && s.TableId == tableId then { s with Status := 1 } else s

/-! ## The sub-steps of processOrder -/

/-- The input payload destructured by `processOrder` (lines 280-300).
Optional numeric fields are `none` when the corresponding `parseInt`/
`parseFloat` yields `NaN`; absent strings are `""`; `selectedSeats` is `none`
when absent or not an array, and a seat entry is `none` when its `parseInt`
yields `NaN`; `holdedOrder` is `none` when absent. -/
structure Item where
  itemCode : Option Int
  slNo : Option Int
  qty : Option Rat
  rate : Option Rat
  amount : Option Rat
  cost : Option Rat
  vat : Option Rat
  vatAmt : Option Rat
  taxLedger : Option Int
  itemName : String
  arabic : String
  notes : String
deriving DecidableEq, Repr

structure OrderInput where
  orderNo : Option Int
  status : String
  date : String
  time : String
  option : Option Int
  custId : Option Int
  custName : String
  flatNo : String
  address : String
  contact : String
  deliveryBoyId : Option Int
  tableId : Option Int
  tableNo : String
  remarks : String
  total : Option Rat
  prfx : String
  items : List Item
  holdedOrder : Option Int
  selectedSeats : Option (List (Option Int))
deriving DecidableEq, Repr

/-- `customerInfo` of the result descriptor. -/
structure CustomerInfo where
  custId : Int
  custName : String
  contact : String
deriving DecidableEq, Repr

/-- `tableInfo` of the result descriptor. -/
structure TableInfo where
  tableId : Int
  tableNo : String
deriving DecidableEq, Repr

/-- `details` of the result descriptor (lines 1111-1130). -/
structure ResultDetails where
  orderType : String
  customerInfo : Option CustomerInfo
  tableInfo : Option TableInfo
  selectedSeats : Option (List (Option Int))
  itemsCount : Nat
  total : Rat
deriving DecidableEq, Repr

/-- The result descriptor returned on commit (lines 1106-1131). -/
structure ProcessResult where
  success : Bool
  orderNo : Int
  status : String
  message : String
  details : ResultDetails
deriving DecidableEq, Repr

/-- The guard of `handleCustomerManagement` (line 336):
`["NEW", "UPDATED", "KOT"].includes(status) && custName && contact`. -/
def hcmGuard (inp : OrderInput) : Bool :=
  (inp.status == "NEW" || inp.status == "UPDATED" || inp.status == "KOT")
    && inp.custName != "" && inp.contact != ""

/-- `handleCustomerManagement` (lines 335-427).  `custId` is the already
parsed numeric customer id; the returned value is `finalCustId`.
`!existingCustomer.Phone` is `Phone == ""` under the null-as-empty-string
convention. -/
def handleCustomerManagement (inp : OrderInput) (custId : Int) : M Int := do
  if hcmGuard inp then
    let nc := normalizeContact inp.contact
    let found ← sqlRun (fun db => (customerLookup db inp.custName nc, db))
    match found with
    | some existing => do
      let updContact := existing.ContactNo != nc
      let updPhone := existing.Phone != nc && existing.Phone == ""
      let updAdd := existing.Add1 != jsOrStr inp.address (jsOrStr inp.flatNo "")
      let newContact := if updContact then some nc else none
      let newPhone := if updPhone then some nc else none
      let newAdd := if updAdd then some (jsOrStr inp.address (jsOrStr inp.flatNo "")) else none
      if updContact || updPhone || updAdd then
        sqlRun (fun db =>
          ((), { db with tblCustomer := applyCustomerUpdate existing.CustCode newContact newPhone newAdd db.tblCustomer }))
      pure existing.CustCode
    | none =>
      sqlRun (insertCustomer inp.custName
        (jsOrStr inp.address (jsOrStr inp.flatNo "")) nc (jsOrStr inp.flatNo ""))
  else
    pure (jsOrInt custId 0)

/-- `getSeatIdForOrderMaster` (lines 432-442): first selected seat when the
array is non-empty and the first entry parses to a positive integer. -/
def getSeatIdForOrderMaster (selectedSeats : Option (List (Option Int))) : Option Int :=
  match selectedSeats with
  | some (first :: _) =>
    match first with
    | some n => if 0 < n then some n else none
    | none => none
  | _ => none

/-- One `tblOrder_D`-shaped row from a submitted item (all numeric fields
through `parseInt`/`parseFloat` with the `|| 0` fallback). -/
def mkOrderD (orderNo : Int) (item : Item) : OrderD :=
  { OrderNo := orderNo
    SlNo := item.slNo.getD 0
    ItemCode := item.itemCode.getD 0
    ItemName := item.itemName
    Qty := item.qty.getD 0
    Rate := item.rate.getD 0
    Amount := item.amount.getD 0
    Cost := item.cost.getD 0
    Vat := item.vat.getD 0
    VatAmt := item.vatAmt.getD 0
    TaxLedger := item.taxLedger.getD 0
    Arabic := item.arabic
    Notes := item.notes }

/-- The order-line insert loop (lines 489-525; re-used verbatim by the
UPDATED branch, lines 764-798). -/
def insertOrderDetails (orderNo : Int) : List Item → M Unit
  | [] => pure ()
  | item :: rest => do
    sqlRun (fun db => ((), { db with tblOrder_D := db.tblOrder_D ++ [mkOrderD orderNo item] }))
    insertOrderDetails orderNo rest

/-- The per-item printer pass of NEW/UPDATED (lines 532-561 and 800-829):
look up the item's configured printer, insert a `tblPrinter` row with it
(blank when unconfigured).  `itemId` is `parseInt(item.itemCode) || 0`. -/
def assignOrderPrinters (orderNo : Int) : List Item → M Unit
  | [] => pure ()
  | item :: rest => do
    let printerName ← sqlRun (fun db => (printeLookup db.tblItemMaster (item.itemCode.getD 0), db))
    sqlRun (fun db => ((), { db with tblPrinter := db.tblPrinter ++
      [{ OrderNo := orderNo, SlNo := item.slNo.getD 0,
         ItemId := item.itemCode.getD 0, Printer := printerName }] }))
    assignOrderPrinters orderNo rest

/-- `UPDATE tblPrinter SET Printer = @Printer WHERE Printer = '' AND
OrderNo = @OrderNo` with `process.env.ORDER_PRINTER || "DefaultPrinter"`
(lines 563-569 and 831-837). -/
def backfillOrderPrinters (env : Env) (orderNo : Int) : M Unit :=
  sqlRun (fun db => ((), { db with tblPrinter := db.tblPrinter.map (fun p =>
    if p.Printer == "" && p.OrderNo == orderNo then
      { p with Printer := jsOrStr env.ORDER_PRINTER "DefaultPrinter" } else p) }))

/-- The explicit-seat flow of the NEW branch (lines 579-621): for each seat id
that parses to a positive integer, mark the seat occupied, re-read its master
record and, when it exists, insert a `tblOrder_Seats` row from the master
record's own label and table. -/
def processSelectedSeatsNew (env : Env) (orderNo tableId : Int) :
    List (Option Int) → M Unit
  | [] => pure ()
  | seatId :: rest => do
    (match seatId with
     | some n =>
       if 0 < n then do
         sqlRun (fun db => ((), { db with tblSeat := occupySeat n tableId db.tblSeat }))
         let details ← sqlRun (fun db => (seatFind db.tblSeat n tableId, db))
         (match details with
          | some sd =>
            sqlRun (fun db => ((), { db with tblOrder_Seats := db.tblOrder_Seats ++
              [{ OrderNo := orderNo, SeatName := sd.SeatName, SeatId := sd.SeatId,
                 TableId := sd.TableId, Status := 0,
                 Counter := jsOrStr env.COUNTER_NAME "DefaultCounter" }] }))
          | none => pure ())
       else pure ()
     | none => pure ())
    processSelectedSeatsNew env orderNo tableId rest

/-- The loop body of the staged-seat fallback (lines 633-651). -/
def stagedSeatLoop (env : Env) (orderNo : Int) : List TempSeatRow → M Unit
  | [] => pure ()
  | seat :: rest => do
    sqlRun (fun db => ((), { db with tblOrder_Seats := db.tblOrder_Seats ++
      [{ OrderNo := orderNo, SeatName := seat.SeatName, SeatId := seat.SeatId,
         TableId := seat.TableId, Status := 0,
         Counter := jsOrStr env.COUNTER_NAME "DefaultCounter" }] }))
    sqlRun (fun db => ((), { db with tblSeat := occupySeat seat.SeatId seat.TableId db.tblSeat }))
    stagedSeatLoop env orderNo rest

/-- The staged-seat fallback of the NEW branch (lines 622-657): read the rows
staged under the counter label, convert each, then purge the staged rows. -/
def processStagedSeats (env : Env) (orderNo : Int) : M Unit := do
  let counterName := jsOrStr env.COUNTER_NAME "DefaultCounter"
  let staged ← sqlRun (fun db =>
    (db.tblTemp_Seats.filter (fun t => t.Counter == counterName), db))
  stagedSeatLoop env orderNo staged
  sqlRun (fun db => ((), { db with tblTemp_Seats := db.tblTemp_Seats.filter (fun t => !(t.Counter == counterName)) }))

/-- The table-occupancy recomputation (lines 660-677, repeated at 915-932):
status 1 ("partially occupied") when some seat of the table is free, else 2. -/
def updateTableStatus (tableId : Int) : M Unit := do
  let freeSeats ← sqlRun (fun db =>
    (db.tblSeat.filter (fun s => s.TableId == tableId && s.Status == 0), db))
  let tableStatus : Int := if freeSeats.length > 0 then 1 else 2
  sqlRun (fun db => ((), { db with tblTable := db.tblTable.map (fun t =>
    if t.TableId == tableId then { t with Status := tableStatus } else t) }))

/-- The held-order purge (lines 679-685; one batched query). -/
def purgeHoldedOrder (orderNo : Int) : M Unit :=
  sqlRun (fun db => ((),
    { db with
      tblTempOrder_M := db.tblTempOrder_M.filter (fun n => !(n == orderNo)),
      tblTempOrder_D := db.tblTempOrder_D.filter (fun n => !(n == orderNo)) }))

/-- The seat-occupation loop shared by the UPDATED branch (lines 857-871) and
the KOT branch (lines 971-985): each positive seat id is marked occupied on
the submitted table. -/
def occupySeatsLoop (tableId : Int) : List (Option Int) → M Unit
  | [] => pure ()
  | seatId :: rest => do
    (match seatId with
     | some n =>
       if 0 < n then
         sqlRun (fun db => ((), { db with tblSeat := occupySeat n tableId db.tblSeat }))
       else pure ()
     | none => pure ())
    occupySeatsLoop tableId rest

/-- The seat-assignment re-insertion loop of the UPDATED branch
(lines 878-908). -/
def insertOrderSeatsLoop (env : Env) (orderNo tableId : Int) :
    List (Option Int) → M Unit
  | [] => pure ()
  | seatId :: rest => do
    (match seatId with
     | some n =>
       if 0 < n then do
         let details ← sqlRun (fun db => (seatFind db.tblSeat n tableId, db))
         (match details with
          | some sd =>
            sqlRun (fun db => ((), { db with tblOrder_Seats := db.tblOrder_Seats ++
              [{ OrderNo := orderNo, SeatName := sd.SeatName, SeatId := sd.SeatId,
                 TableId := sd.TableId, Status := 0,
                 Counter := jsOrStr env.COUNTER_NAME "DefaultCounter" }] }))
          | none => pure ())
       else pure ()
     | none => pure ())
    insertOrderSeatsLoop env orderNo tableId rest

/-- The KOT-line insert loop (lines 1016-1052). -/
def insertKotDetails (orderNo : Int) : List Item → M Unit
  | [] => pure ()
  | item :: rest => do
    sqlRun (fun db => ((), { db with tblKot_D := db.tblKot_D ++ [mkOrderD orderNo item] }))
    insertKotDetails orderNo rest

/-- The per-item KOT printer pass (lines 1059-1088). -/
def assignKotPrinters (orderNo : Int) : List Item → M Unit
  | [] => pure ()
  | item :: rest => do
    let printerName ← sqlRun (fun db => (printeLookup db.tblItemMaster (item.itemCode.getD 0), db))
    sqlRun (fun db => ((), { db with tblKotPrinter := db.tblKotPrinter ++
      [{ OrderNo := orderNo, SlNo := item.slNo.getD 0,
         ItemId := item.itemCode.getD 0, Printer := printerName }] }))
    assignKotPrinters orderNo rest

/-- The KOT blank-label backfill (lines 1090-1096) against
`process.env.KOT_PRINTER || "KitchenPrinter"`. -/
def backfillKotPrinters (env : Env) (orderNo : Int) : M Unit :=
  sqlRun (fun db => ((), { db with tblKotPrinter := db.tblKotPrinter.map (fun p =>
    if p.Printer == "" && p.OrderNo == orderNo then
      { p with Printer := jsOrStr env.KOT_PRINTER "KitchenPrinter" } else p) }))

/-- The DineIn seat flow of the NEW branch (lines 571-658): explicit seats
when a non-empty array was supplied, the staged fallback otherwise. -/
def newSeatFlow (env : Env) (inp : OrderInput) (option savedOrderNo tableId : Int) : M Unit :=
  if option == 2 then
    match inp.selectedSeats with
    | some (s :: rest) => processSelectedSeatsNew env savedOrderNo tableId (s :: rest)
    | _ => processStagedSeats env savedOrderNo
  else pure ()

/-- The table-status recomputation guard of the NEW branch (lines 660-677). -/
def newTableFlow (option tableId : Int) : M Unit :=
  if tableId != 0 && option == 2 then updateTableStatus tableId else pure ()

/-- The held-order purge guard of the NEW branch (lines 679-685). -/
def newHoldedFlow (holdedOrder : Option Int) : M Unit :=
  match holdedOrder with
  | some n => if n != 0 then purgeHoldedOrder n else pure ()
  | none => pure ()

/-- The seat/table/held-order tail of the NEW branch (lines 571-685). -/
def newOrderTail (env : Env) (inp : OrderInput) (option savedOrderNo tableId : Int) : M Unit := do
  newSeatFlow env inp option savedOrderNo tableId
  newTableFlow option tableId
  newHoldedFlow inp.holdedOrder

/-! ## The three workflow branches -/

/-- The NEW branch (lines 444-685).  The header insert does not supply
`OrderNo`: the store generates it from the identity seed; `Saled` is the
literal `'No'`.  The authoritative order number is then re-derived by the
`(EDate, Time, CustId)` query. -/
def newOrderBranch (env : Env) (inp : OrderInput)
    (option finalCustId deliveryBoyId tableId : Int) (total : Rat)
    (orderType : String) : M Int := do
  let newOrderNo ← sqlRun (fun db => (maxOrderId db, db))
  let seatIdForOrder := getSeatIdForOrderMaster inp.selectedSeats
  sqlRun (fun db => ((), { db with
    tblOrder_M := db.tblOrder_M ++
      [{ OrderNo := db.orderIdentity, EDate := inp.date, Time := inp.time,
         Options := option, CustId := finalCustId, CustName := inp.custName,
         Flat := inp.flatNo, Address := inp.address, Contact := inp.contact,
         DelBoy := deliveryBoyId, TableId := tableId, TableNo := inp.tableNo,
         Remarks := inp.remarks, Total := total, Saled := "No",
         Status := orderType, Prfx := inp.prfx,
         Pr := if inp.prfx != "" then inp.prfx ++ toString newOrderNo else "",
         SeatId := seatIdForOrder }],
    orderIdentity := db.orderIdentity + 1 }))
  let derived ← sqlRun (fun db => (deriveOrderNo db inp.date inp.time finalCustId, db))
  let savedOrderNo ← match derived with
    | some n => pure n
    | none => throwErr (JsError.infra ""
        "Cannot read properties of undefined (reading OrderNo)")
  insertOrderDetails savedOrderNo inp.items
  sqlRun (fun db => ((), { db with tblPrinter := db.tblPrinter.filter (fun p => !(p.OrderNo == savedOrderNo)) }))
  assignOrderPrinters savedOrderNo inp.items
  backfillOrderPrinters env savedOrderNo
  newOrderTail env inp option savedOrderNo tableId
  pure savedOrderNo

/-- The seat-reconciliation block of the UPDATED branch (lines 839-913),
entered when the order is DineIn and not yet sold: when a non-empty
`selectedSeats` array is supplied, release every seat of the submitted table,
occupy the selected ones, delete the order's seat assignments and re-insert
them from the seat master records; otherwise do nothing. -/
def updSeatReassign (env : Env) (orderNo tableId : Int)
    (selectedSeats : Option (List (Option Int))) : M Unit :=
  match selectedSeats with
  | some (s :: rest) => do
    (if tableId != 0 then
      sqlRun (fun db => ((), { db with tblSeat := db.tblSeat.map (fun st =>
        if st.TableId == tableId then { st with Status := 0 } else st) }))
     else pure ())
    occupySeatsLoop tableId (s :: rest)
    sqlRun (fun db => ((), { db with tblOrder_Seats := db.tblOrder_Seats.filter (fun r => !(r.OrderNo == orderNo)) }))
    insertOrderSeatsLoop env orderNo tableId (s :: rest)
  | _ => pure ()

/-- The UPDATED branch (lines 686-934).  The header rewrite always writes
`SeatId = @SeatId`, where `seatIdForOrder` stays `null` when the order is
already saled. -/
def updatedOrderBranch (env : Env) (inp : OrderInput)
    (orderNo option finalCustId deliveryBoyId tableId : Int) (total : Rat)
    (orderType : String) : M Int := do
  let existing ← sqlRun (fun db =>
    (db.tblOrder_M.find? (fun r => r.OrderNo == orderNo), db))
  match existing with
  | none => throwErr (JsError.app ("Order " ++ toString orderNo ++ " not found") 404)
  | some currentOrder => do
    let isSaled := currentOrder.Saled == "Yes"
    let seatIdForOrder :=
      if !isSaled then getSeatIdForOrderMaster inp.selectedSeats else none
    sqlRun (fun db => ((), { db with tblOrder_M := db.tblOrder_M.map (fun r =>
      if r.OrderNo == orderNo then
        { r with
          EDate := inp.date
          Time := inp.time
          Options := option
          CustId := finalCustId
          CustName := inp.custName
          Flat := inp.flatNo
          Address := inp.address
          Contact := inp.contact
          DelBoy := deliveryBoyId
          TableId := tableId
          TableNo := inp.tableNo
          Remarks := inp.remarks
          Total := total
          Status := orderType
          SeatId := seatIdForOrder }
      else r) }))
    sqlRun (fun db => ((), { db with tblOrder_D := db.tblOrder_D.filter (fun r => !(r.OrderNo == orderNo)) }))
    sqlRun (fun db => ((), { db with tblPrinter := db.tblPrinter.filter (fun p => !(p.OrderNo == orderNo)) }))
    insertOrderDetails orderNo inp.items
    assignOrderPrinters orderNo inp.items
    backfillOrderPrinters env orderNo
    (if option == 2 && !isSaled then updSeatReassign env orderNo tableId inp.selectedSeats
     else pure ())
    (if tableId != 0 && option == 2 && !isSaled then updateTableStatus tableId
     else pure ())
    pure orderNo

/-- The seat handling of the KOT branch (lines 964-990): mark the selected
seats occupied, or — when no seats were supplied — mark the whole table
occupied. -/
def kotSeatUpdates (tableId : Int) (selectedSeats : Option (List (Option Int))) : M Unit :=
  match selectedSeats with
  | some (s :: rest) => occupySeatsLoop tableId (s :: rest)
  | _ =>
    if tableId != 0 then
      sqlRun (fun db => ((), { db with tblTable := db.tblTable.map (fun t =>
        if t.TableId == tableId then { t with Status := 1 } else t) }))
    else pure ()

/-- The KOT branch (lines 935-1098): update the live header's table/seat and
customer fields (two UPDATEs, no existence check), mark seats or the table
occupied, insert the parallel KOT header and lines, and redo the KOT printer
assignments. -/
def kotOrderBranch (env : Env) (inp : OrderInput)
    (orderNo option finalCustId deliveryBoyId tableId : Int) (total : Rat)
    (orderType : String) : M Int := do
  let seatIdForOrder := getSeatIdForOrderMaster inp.selectedSeats
  sqlRun (fun db => ((), { db with tblOrder_M := db.tblOrder_M.map (fun r =>
    if r.OrderNo == orderNo then
      { r with TableId := tableId, TableNo := inp.tableNo, SeatId := seatIdForOrder }
    else r) }))
  sqlRun (fun db => ((), { db with tblOrder_M := db.tblOrder_M.map (fun r =>
    if r.OrderNo == orderNo then
      { r with
        CustId := finalCustId
        CustName := inp.custName
        Contact := inp.contact
        Address := inp.address
        Flat := inp.flatNo }
    else r) }))
  kotSeatUpdates tableId inp.selectedSeats
  sqlRun (fun db => ((), { db with tblKot_M := db.tblKot_M ++
    [{ OrderNo := orderNo, EDate := inp.date, Time := inp.time, Options := option,
       CustId := finalCustId, CustName := inp.custName, Flat := inp.flatNo,
       Address := inp.address, Contact := inp.contact, DelBoy := deliveryBoyId,
       TableId := tableId, TableNo := inp.tableNo, Remarks := inp.remarks,
       Total := total, Saled := "No", Status := orderType }] }))
  insertKotDetails orderNo inp.items
  sqlRun (fun db => ((), { db with tblKotPrinter := db.tblKotPrinter.filter (fun p => !(p.OrderNo == orderNo)) }))
  assignKotPrinters orderNo inp.items
  backfillKotPrinters env orderNo
  pure orderNo

/-! ## The coordinator -/

/-- The try-block of `processOrder` (lines 305-1134): parse the numeric
fields, resolve the customer, dispatch on the status, and build the result
descriptor.  `parseInt(x) || 0` / `parseFloat(x) || 0` is `Option.getD 0`
(a failed parse and a parsed `0` both coerce to `0`). -/
def processOrderBody (env : Env) (inp : OrderInput) : M ProcessResult := do
  let orderNo := inp.orderNo.getD 0
  let option := inp.option.getD 0
  let custId := inp.custId.getD 0
  let deliveryBoyId := inp.deliveryBoyId.getD 0
  let tableId := inp.tableId.getD 0
  let total := inp.total.getD 0
  let orderType := orderTypeOf option
  let finalCustId ← handleCustomerManagement inp custId
  let savedOrderNo ←
    if inp.status == "NEW" then
      newOrderBranch env inp option finalCustId deliveryBoyId tableId total orderType
    else if inp.status == "UPDATED" then
      updatedOrderBranch env inp orderNo option finalCustId deliveryBoyId tableId total orderType
    else if inp.status == "KOT" then
      kotOrderBranch env inp orderNo option finalCustId deliveryBoyId tableId total orderType
    else
      throwErr (JsError.app ("Invalid order status: " ++ inp.status) 400)
  pure {
    success := true
    orderNo := savedOrderNo
    status := inp.status
    message := "Order " ++ jsToLower inp.status ++ " successfully"
    details := {
      orderType := orderType
      customerInfo :=
        if finalCustId != 0 then
          some { custId := finalCustId, custName := inp.custName, contact := inp.contact }
        else none
      tableInfo :=
        if tableId != 0 then some { tableId := tableId, tableNo := inp.tableNo } else none
      selectedSeats :=
        match inp.selectedSeats with
        | some (s :: rest) => some (s :: rest)
        | _ => none
      itemsCount := inp.items.length
      total := total } }

/-- The catch-block's error translation (lines 1147-1181).  `createAppError`
leaves `name` as `"Error"` and sets `statusCode` (not `status`), so the
`error.name === "AppError"` passthrough never fires for an `app` error and
the final wrap reads `error.status || 500`, i.e. always `500`. -/
def mapCaughtError : JsError → JsError
  | .app msg _statusCode =>
    if includesSub msg "Cannot insert NULL" then .app "Missing required field data" 400
    else if includesSub msg "Violation of PRIMARY KEY" then
      .app "Duplicate order number detected" 409
    else if includesSub msg "FOREIGN KEY constraint" then
      .app "Invalid reference data provided" 400
    else .app ("Order processing failed: " ++ jsOrStr msg "Unknown error") 500
  | .infra code msg =>
    if code != "" then
      if code == "EREQUEST" then .app ("Database request error: " ++ msg) 500
      else if code == "ELOGIN" then .app "Database authentication failed" 500
      else if code == "ECONNRESET" then .app "Database connection was reset" 500
      else if code == "ETIMEOUT" then .app "Database operation timed out" 500
      else .app ("Database error: " ++ msg) 500
    else
      if includesSub msg "Cannot insert NULL" then .app "Missing required field data" 400
      else if includesSub msg "Violation of PRIMARY KEY" then
        .app "Duplicate order number detected" 409
      else if includesSub msg "FOREIGN KEY constraint" then
        .app "Invalid reference data provided" 400
      else .app ("Order processing failed: " ++ jsOrStr msg "Unknown error") 500

/-- The transaction coordinator (lines 280-1183): run the body inside the
transaction; on success the new state is committed and the result descriptor
returned; on any thrown error the transaction is rolled back — the committed
state is the pre-transaction state (a rollback failure is only logged, which
has no observable effect on state) — and the translated error is re-thrown. -/
def processOrder (env : Env) (fuel : Option Nat) (inp : OrderInput) (db : DB) :
    DB × Except JsError ProcessResult :=
  match processOrderBody env inp { db := db, fuel := fuel } with
  | .ok (res, s) => (s.db, .ok res)
  | .error e => (db, .error (mapCaughtError e))

end PosNode

namespace PosNode

/-! ## Spec-side derived notions used in theorem statements -/

/-- The seat ids of a submitted `selectedSeats` array that pass the
`parsedSeatId && parsedSeatId > 0` validity test. -/
def validSeatIds (l : List (Option Int)) : List Int :=
  l.filterMap (fun o =>
    match o with
    | some n => if 0 < n then some n else none
    | none => none)

/-- `tblSeat` after a seat-occupation loop over `ids` on `tableId`: the seats
of the table whose id is in `ids` are occupied. -/
def occupyMany (ids : List Int) (tableId : Int) (s : SeatRow) : SeatRow :=
  if s.TableId == tableId && ids.contains s.SeatId then { s with Status := 1 } else s

/-- The identity-seed well-formedness of a database: every order number
already present in the order tables is below the next generated key. -/
def ordersWf (db : DB) : Prop :=
  (∀ r ∈ db.tblOrder_M, r.OrderNo < db.orderIdentity) ∧
  (∀ r ∈ db.tblOrder_D, r.OrderNo < db.orderIdentity) ∧
  (∀ r ∈ db.tblPrinter, r.OrderNo < db.orderIdentity)

/-- Replace every numeric item field by its `parseInt`/`parseFloat` `|| 0`
coercion (turning a failed parse into an explicit 0). -/
def coerceItemNums (it : Item) : Item :=
  { it with
    itemCode := some (it.itemCode.getD 0)
    slNo := some (it.slNo.getD 0)
    qty := some (it.qty.getD 0)
    rate := some (it.rate.getD 0)
    amount := some (it.amount.getD 0)
    cost := some (it.cost.getD 0)
    vat := some (it.vat.getD 0)
    vatAmt := some (it.vatAmt.getD 0)
    taxLedger := some (it.taxLedger.getD 0) }

/-- Replace every numeric submission field (and every numeric item field) by
its `|| 0` coercion. -/
def coerceNums (inp : OrderInput) : OrderInput :=
  { inp with
    orderNo := some (inp.orderNo.getD 0)
    option := some (inp.option.getD 0)
    custId := some (inp.custId.getD 0)
    deliveryBoyId := some (inp.deliveryBoyId.getD 0)
    tableId := some (inp.tableId.getD 0)
    total := some (inp.total.getD 0)
    items := inp.items.map coerceItemNums }

/-! ## Concrete fixtures (used by witnesses and counterexamples) -/

/-- An environment with no variables set (all defaults apply). -/
def exEnv : Env := { ORDER_PRINTER := "", KOT_PRINTER := "", COUNTER_NAME := "" }

def exSeat1 : SeatRow := { SeatId := 1, TableId := 1, SeatName := "S1", Status := 0 }

def exSeat2 : SeatRow := { SeatId := 2, TableId := 1, SeatName := "S2", Status := 0 }

def exItem : Item :=
  { itemCode := some 101, slNo := some 1, qty := some 2, rate := some 10,
    amount := some 20, cost := some 0, vat := some 0, vatAmt := some 0,
    taxLedger := some 0, itemName := "Burger", arabic := "", notes := "" }

/-- A small initial database: one table with two free seats, one menu item
with no configured printer, empty order tables, identity seeds at 1. -/
def exDb : DB :=
  { tblOrder_M := [], tblOrder_D := [], tblPrinter := [], tblKot_M := [],
    tblKot_D := [], tblKotPrinter := [], tblCustomer := [],
    tblSeat := [exSeat1, exSeat2], tblTable := [{ TableId := 1, Status := 0 }],
    tblOrder_Seats := [], tblTemp_Seats := [], tblTempOrder_M := [],
    tblTempOrder_D := [], tblItemMaster := [{ ItemId := 101, PrinteName := "" }],
    orderIdentity := 1, custIdentity := 1 }

/-- A valid NEW DineIn submission claiming both seats of table 1. -/
def exInpNew : OrderInput :=
  { orderNo := some 0, status := "NEW", date := "2026-10-11", time := "12:00",
    option := some 2, custId := some 0, custName := "Alice", flatNo := "",
    address := "addr", contact := "+1 (234) 567-8901", deliveryBoyId := none,
    tableId := some 1, tableNo := "T1", remarks := "", total := some 20,
    prfx := "", items := [exItem], holdedOrder := none,
    selectedSeats := some [some 1, some 2] }

/-- A DineIn order header for order number 1 on table 1, not yet sold. -/
def exOrder1 : OrderM :=
  { OrderNo := 1, EDate := "2026-10-10", Time := "11:00", Options := 2,
    CustId := 0, CustName := "Bob", Flat := "", Address := "", Contact := "",
    DelBoy := 0, TableId := 1, TableNo := "T1", Remarks := "", Total := 5,
    Saled := "No", Status := "DineIn", Prfx := "", Pr := "", SeatId := some 1 }

/-- A database holding order 1 (not sold) with seat 1 occupied by it. -/
def exDbOrder1 : DB :=
  { exDb with
    tblOrder_M := [exOrder1]
    tblSeat := [{ exSeat1 with Status := 1 }, exSeat2]
    tblOrder_Seats := [{ OrderNo := 1, SeatName := "S1", SeatId := 1, TableId := 1, Status := 0, Counter := "DefaultCounter" }]
    orderIdentity := 2 }

/-- The same database with order 1 finalized ("sold"). -/
def exDbSaled : DB :=
  { exDbOrder1 with tblOrder_M := [{ exOrder1 with Saled := "Yes" }] }

/-- An UPDATED submission for order 1. -/
def exInpUpd : OrderInput := { exInpNew with status := "UPDATED", orderNo := some 1 }

/-- A KOT submission for order 1. -/
def exInpKot : OrderInput := { exInpNew with status := "KOT", orderNo := some 1 }

/-- The per-seat effect of the UPDATED-branch seat reconciliation on the
submitted table: every seat of the table ends occupied exactly when its id is
among the valid selected ids; seats of other tables are untouched. -/
def seatReassignMap (ids : List Int) (tableId : Int) (st : SeatRow) : SeatRow :=
  if st.TableId == tableId then
    { st with Status := if ids.contains st.SeatId then 1 else 0 }
  else st

/-- The UPDATED submission for order 1 with no `selectedSeats` array. -/
def exInpUpdNoSeats : OrderInput := { exInpUpd with selectedSeats := none }

/-- The order's seat-assignment rows after the UPDATED-branch seat
reconciliation: the order's previous rows are deleted and one row per valid
selected seat id that has a master record on the submitted table is inserted,
built from the master record's own label and table. -/
def reassignedOrderSeats (env : Env) (orderNo tid : Int) (ids : List Int) (db : DB) :
    List OrderSeatRow :=
  db.tblOrder_Seats.filter (fun r => !(r.OrderNo == orderNo))
    ++ ids.filterMap (fun n => (seatFind db.tblSeat n tid).map (fun sd =>
         { OrderNo := orderNo, SeatName := sd.SeatName, SeatId := sd.SeatId,
           TableId := sd.TableId, Status := 0,
           Counter := jsOrStr env.COUNTER_NAME "DefaultCounter" }))

end PosNode

namespace PosNode

/-! ## Reduction lemmas for the transactional monad -/

theorem M_bind_apply {α β : Type} (x : M α) (f : α → M β) (s : St) :
    (x >>= f) s = match x s with
      | .ok (a, s') => f a s'
      | .error e => .error e := rfl

theorem M_pure_apply {α : Type} (a : α) (s : St) : (pure a : M α) s = .ok (a, s) := rfl

theorem sqlRun_fuelNone {α : Type} (f : DB → α × DB) (db : DB) :
    sqlRun f { db := db, fuel := none }
      = .ok ((f db).1, { db := (f db).2, fuel := none }) := rfl

theorem throwErr_apply {α : Type} (e : JsError) (s : St) :
    (throwErr e : M α) s = .error e := rfl

theorem M_bind_apply_ok {α β : Type} {x : M α} {s s' : St} {a : α}
    (h : x s = .ok (a, s')) (f : α → M β) : (x >>= f) s = f a s' := by
  have hb : (x >>= f) s = match x s with
    | .ok (a, s') => f a s'
    | .error e => .error e := rfl
  rw [hb, h]

theorem M_bind_apply_error {α β : Type} {x : M α} {s : St} {e : JsError}
    (h : x s = .error e) (f : α → M β) : (x >>= f) s = .error e := by
  have hb : (x >>= f) s = match x s with
    | .ok (a, s') => f a s'
    | .error e => .error e := rfl
  rw [hb, h]

/-! ## Facts about contact normalization -/

theorem normalizeContact_length (s : String) :
    (normalizeContact s).data.length = 10 := by
  unfold normalizeContact
  simp only [String.data]
  rw [List.length_drop]
  simp only [List.length_append, List.length_replicate]
  omega

theorem normalizeContact_digits (s : String) :
    ∀ c ∈ (normalizeContact s).data, c.isDigit := by
  unfold normalizeContact
  intro c hc
  simp only [String.data] at hc
  have hc' := List.mem_of_mem_drop hc
  rcases List.mem_append.mp hc' with h | h
  · have := List.eq_of_mem_replicate h
    subst this
    decide
  · exact List.of_mem_filter h

/-- C5: contact normalization (strip non-digits, left-pad with zeros to 10,
keep the last 10) is idempotent — it fixes every already-normalized 10-digit
string, hence `normalizeContact ∘ normalizeContact = normalizeContact` — and
normalizing "+1 (234) 567-8901" yields the same value as normalizing
"2345678901". -/
theorem C5_contact_normalization_idempotent :
    (∀ s : String, normalizeContact (normalizeContact s) = normalizeContact s)
    ∧ (∀ s : String, s.data.length = 10 → (∀ c ∈ s.data, c.isDigit) →
        normalizeContact s = s)
    ∧ normalizeContact "+1 (234) 567-8901" = normalizeContact "2345678901" := by
  have hfix : ∀ s : String, s.data.length = 10 → (∀ c ∈ s.data, c.isDigit) →
      normalizeContact s = s := by
    intro s hlen hdig
    have hfilter : s.data.filter Char.isDigit = s.data :=
      List.filter_eq_self.mpr (fun c hc => hdig c hc)
    unfold normalizeContact
    simp [hfilter, hlen]
  refine ⟨fun s => hfix _ (normalizeContact_length s) (normalizeContact_digits s),
    hfix, by decide⟩

/-- Witness for C5 at a concrete normalized string. -/
theorem C5_contact_normalization_idempotent_witness :
    normalizeContact "0123456789" = "0123456789" :=
  C5_contact_normalization_idempotent.2.1 "0123456789" (by decide) (by decide)

/-! ## C1: rollback on any sub-step failure -/

/-- C1: whenever any sub-step of the transaction body throws (for any fault
point, any submission, any database), the coordinator rolls back — the
committed state is exactly the pre-transaction state, so no header, line,
printer, seat-assignment or customer row of the failed submission survives —
and re-raises the (translated) error to the caller. -/
theorem C1_rollback_on_failure (env : Env) (fuel : Option Nat) (inp : OrderInput)
    (db : DB) (e : JsError)
    (h : processOrderBody env inp { db := db, fuel := fuel } = .error e) :
    processOrder env fuel inp db = (db, .error (mapCaughtError e)) := by
  unfold processOrder
  rw [h]

/-- Witness for C1: a fault injected at the order-line insertion step of a
NEW submission rolls the state back to the initial database. -/
theorem C1_rollback_on_failure_witness :
    processOrder exEnv (some 5) exInpNew exDb
      = (exDb, .error (mapCaughtError injectedFault)) :=
  C1_rollback_on_failure exEnv (some 5) exInpNew exDb injectedFault rfl

/-! ## C6: invalid status value -/

/-- C6: a submission whose status is outside NEW/UPDATED/KOT performs no
write at all (the committed state is the unchanged pre-state; in particular
the customer resolver, whose guard requires a recognised status, issues no
query), but the surfaced error carries statusCode 500, not the claimed 400:
the branch throws `createAppError("Invalid order status: ...", 400)` and the
catch block re-wraps it as "Order processing failed: ..." with status 500,
because `createAppError` never sets `name = "AppError"` and sets `statusCode`
rather than the `status` field the wrap-up reads. -/
theorem C6_invalid_status_no_write_but_500 :
    processOrder exEnv none { exInpNew with status := "INVALID" } exDb
      = (exDb, .error (.app "Order processing failed: Invalid order status: INVALID" 500)) := rfl

end PosNode

namespace PosNode

/-! ## Properties of the customer lookup -/

theorem patchCustomer_CustCode (code : Int) (n1 n2 n3 : Option String)
    (c : CustomerRow) : (patchCustomer code n1 n2 n3 c).CustCode = c.CustCode := by
  unfold patchCustomer
  split <;> rfl

theorem patchCustomer_of_ne (code : Int) (n1 n2 n3 : Option String)
    (c : CustomerRow) (h : ¬ c.CustCode = code) :
    patchCustomer code n1 n2 n3 c = c := by
  unfold patchCustomer
  simp [h]

theorem applyCustomerUpdate_none_none_none (code : Int) (l : List CustomerRow) :
    applyCustomerUpdate code none none none l = l := by
  unfold applyCustomerUpdate
  have h : patchCustomer code none none none = id := by
    funext c
    unfold patchCustomer
    split <;> rfl
  rw [h, List.map_id]

theorem applyCustomerUpdate_length (code : Int) (n1 n2 n3 : Option String)
    (l : List CustomerRow) : (applyCustomerUpdate code n1 n2 n3 l).length = l.length := by
  unfold applyCustomerUpdate
  exact List.length_map _ _

theorem topByCustCodeDesc_fold (l : List CustomerRow) (a : CustomerRow) :
    ∃ c, l.foldl (fun acc c =>
        match acc with
        | none => some c
        | some b => if b.CustCode < c.CustCode then some c else some b) (some a) = some c
      ∧ (c = a ∨ c ∈ l) ∧ a.CustCode ≤ c.CustCode ∧ ∀ b ∈ l, b.CustCode ≤ c.CustCode := by
  induction l generalizing a with
  | nil => exact ⟨a, rfl, Or.inl rfl, le_refl _, by simp⟩
  | cons x xs ih =>
    simp only [List.foldl_cons]
    by_cases h : a.CustCode < x.CustCode
    · obtain ⟨c, hc, hmem, hge, hall⟩ := ih x
      refine ⟨c, by simp [h, hc], ?_, le_of_lt (lt_of_lt_of_le h hge), ?_⟩
      · rcases hmem with h' | h'
        · exact Or.inr (by simp [h'])
        · exact Or.inr (List.mem_cons_of_mem _ h')
      · intro b hb
        rcases List.mem_cons.mp hb with h' | h'
        · subst h'; exact hge
        · exact hall b h'
    · obtain ⟨c, hc, hmem, hge, hall⟩ := ih a
      refine ⟨c, by simp [h, hc], ?_, hge, ?_⟩
      · rcases hmem with h' | h'
        · exact Or.inl h'
        · exact Or.inr (List.mem_cons_of_mem _ h')
      · intro b hb
        rcases List.mem_cons.mp hb with h' | h'
        · subst h'; exact le_trans (le_of_not_lt h) hge
        · exact hall b h'

theorem topByCustCodeDesc_nil : topByCustCodeDesc [] = none := rfl

theorem topByCustCodeDesc_spec (l : List CustomerRow) (c : CustomerRow)
    (h : topByCustCodeDesc l = some c) :
    c ∈ l ∧ ∀ b ∈ l, b.CustCode ≤ c.CustCode := by
  cases l with
  | nil => simp [topByCustCodeDesc_nil] at h
  | cons x xs =>
    unfold topByCustCodeDesc at h
    simp only [List.foldl_cons] at h
    obtain ⟨c', hc', hmem, hge, hall⟩ := topByCustCodeDesc_fold xs x
    rw [hc'] at h
    cases h
    constructor
    · rcases hmem with h' | h'
      · exact h' ▸ List.mem_cons_self _ _
      · exact List.mem_cons_of_mem _ h'
    · intro b hb
      rcases List.mem_cons.mp hb with h' | h'
      · subst h'; exact hge
      · exact hall b h'

theorem topByCustCodeDesc_of_ne_nil (l : List CustomerRow) (h : l ≠ []) :
    ∃ c, topByCustCodeDesc l = some c := by
  cases l with
  | nil => exact absurd rfl h
  | cons x xs =>
    unfold topByCustCodeDesc
    simp only [List.foldl_cons]
    obtain ⟨c, hc, _⟩ := topByCustCodeDesc_fold xs x
    exact ⟨c, hc⟩

theorem customerLookup_some (db : DB) (name nc : String) (c : CustomerRow)
    (h : customerLookup db name nc = some c) :
    c ∈ db.tblCustomer ∧ custMatches name nc c = true ∧
      ∀ b ∈ db.tblCustomer, custMatches name nc b = true → b.CustCode ≤ c.CustCode := by
  unfold customerLookup at h
  obtain ⟨hmem, hmax⟩ := topByCustCodeDesc_spec _ _ h
  refine ⟨(List.mem_filter.mp hmem).1, (List.mem_filter.mp hmem).2, ?_⟩
  intro b hb hmatch
  exact hmax b (List.mem_filter.mpr ⟨hb, hmatch⟩)

theorem customerLookup_none (db : DB) (name nc : String)
    (h : customerLookup db name nc = none) :
    ∀ b ∈ db.tblCustomer, custMatches name nc b = false := by
  unfold customerLookup at h
  intro b hb
  by_contra hmatch
  have hbmem : b ∈ db.tblCustomer.filter (custMatches name nc) :=
    List.mem_filter.mpr ⟨hb, by revert hmatch; cases custMatches name nc b <;> simp⟩
  obtain ⟨c, hc⟩ := topByCustCodeDesc_of_ne_nil _ (List.ne_nil_of_mem hbmem)
  rw [h] at hc
  cases hc

end PosNode

namespace PosNode

/-! ## Run lemmas for the customer resolver -/

theorem hcm_skip (inp : OrderInput) (custId : Int) (s : St)
    (h : hcmGuard inp = false) :
    handleCustomerManagement inp custId s = .ok (jsOrInt custId 0, s) := by
  unfold handleCustomerManagement
  simp [h, M_pure_apply]

theorem hcm_found (inp : OrderInput) (custId : Int) (db : DB) (c : CustomerRow)
    (hcond : hcmGuard inp = true)
    (hfind : customerLookup db inp.custName (normalizeContact inp.contact) = some c) :
    handleCustomerManagement inp custId { db := db, fuel := none }
      = .ok (c.CustCode, { db := { db with tblCustomer := applyCustomerUpdate c.CustCode (if c.ContactNo != normalizeContact inp.contact then some (normalizeContact inp.contact) else none) (if c.Phone != normalizeContact inp.contact && c.Phone == "" then some (normalizeContact inp.contact) else none) (if c.Add1 != jsOrStr inp.address (jsOrStr inp.flatNo "") then some (jsOrStr inp.address (jsOrStr inp.flatNo "")) else none) db.tblCustomer }, fuel := none }) := by
  unfold handleCustomerManagement
  simp only [hcond, if_true, M_bind_apply, sqlRun_fuelNone, hfind, M_pure_apply]
  by_cases hupd : ((c.ContactNo != normalizeContact inp.contact)
      || (c.Phone != normalizeContact inp.contact && c.Phone == "")
      || (c.Add1 != jsOrStr inp.address (jsOrStr inp.flatNo ""))) = true
  · simp only [hupd, if_true, M_bind_apply, sqlRun_fuelNone, M_pure_apply]
  · have hsplit : ∀ a b c : Bool, ¬((a || b || c) = true) →
        a = false ∧ b = false ∧ c = false := by decide
    obtain ⟨h1, h2, h3⟩ := hsplit _ _ _ hupd
    simp only [h1, h2, h3, Bool.or_self, Bool.false_or, Bool.or_false,
      if_false, Bool.false_eq_true, M_bind_apply, M_pure_apply,
      applyCustomerUpdate_none_none_none]

theorem hcm_create (inp : OrderInput) (custId : Int) (db : DB)
    (hcond : hcmGuard inp = true)
    (hfind : customerLookup db inp.custName (normalizeContact inp.contact) = none) :
    handleCustomerManagement inp custId { db := db, fuel := none }
      = .ok (db.custIdentity, { db := { db with
          tblCustomer := db.tblCustomer ++
            [{ CustCode := db.custIdentity, CustName := inp.custName,
               Add1 := jsOrStr inp.address (jsOrStr inp.flatNo ""),
               ContactNo := normalizeContact inp.contact,
               Phone := normalizeContact inp.contact,
               Fax := jsOrStr inp.flatNo "", Active := 1 }]
          custIdentity := db.custIdentity + 1 }, fuel := none }) := by
  unfold handleCustomerManagement
  simp only [hcond, if_true, M_bind_apply, sqlRun_fuelNone, hfind, M_pure_apply]
  rfl

end PosNode

namespace PosNode

/-- After the opportunistic patch of the found customer, looking the same
(name, normalized contact) pair up again still resolves, and to the same
customer code. -/
theorem customerLookup_after_patch (db : DB) (name nc : String) (c : CustomerRow)
    (h : customerLookup db name nc = some c) (n1 n2 n3 : Option String)
    (hn1 : n1.getD c.ContactNo = nc) :
    ∃ c2, customerLookup { db with tblCustomer := applyCustomerUpdate c.CustCode n1 n2 n3 db.tblCustomer } name nc = some c2
      ∧ c2.CustCode = c.CustCode := by
  obtain ⟨hmem, hmatch, hmax⟩ := customerLookup_some db name nc c h
  have hcode_self : (c.CustCode == c.CustCode) = true := by simp
  have hpc_contact : (patchCustomer c.CustCode n1 n2 n3 c).ContactNo = nc := by
    unfold patchCustomer
    rw [hcode_self]
    simpa using hn1
  have hpc_name : (patchCustomer c.CustCode n1 n2 n3 c).CustName = c.CustName := by
    unfold patchCustomer
    rw [hcode_self]
    simp
  have hpc_active : (patchCustomer c.CustCode n1 n2 n3 c).Active = c.Active := by
    unfold patchCustomer
    rw [hcode_self]
    simp
  have hpc_match : custMatches name nc (patchCustomer c.CustCode n1 n2 n3 c) = true := by
    unfold custMatches at hmatch ⊢
    rw [hpc_contact, hpc_name, hpc_active]
    simp only [Bool.and_eq_true, Bool.or_eq_true] at hmatch ⊢
    exact ⟨⟨Or.inl (by simp), hmatch.1.2⟩, hmatch.2⟩
  have hpc_mem : patchCustomer c.CustCode n1 n2 n3 c
      ∈ applyCustomerUpdate c.CustCode n1 n2 n3 db.tblCustomer :=
    List.mem_map_of_mem _ hmem
  have hpc_filter : patchCustomer c.CustCode n1 n2 n3 c
      ∈ (applyCustomerUpdate c.CustCode n1 n2 n3 db.tblCustomer).filter (custMatches name nc) :=
    List.mem_filter.mpr ⟨hpc_mem, hpc_match⟩
  obtain ⟨c2, hc2⟩ :=
    topByCustCodeDesc_of_ne_nil _ (List.ne_nil_of_mem hpc_filter)
  obtain ⟨hc2mem, hc2max⟩ := topByCustCodeDesc_spec _ _ hc2
  have hlook2 : customerLookup { db with tblCustomer := applyCustomerUpdate c.CustCode n1 n2 n3 db.tblCustomer } name nc = some c2 := by
    unfold customerLookup
    exact hc2
  refine ⟨c2, hlook2, ?_⟩
  have hc2mem' := List.mem_filter.mp hc2mem
  obtain ⟨x, hx_mem, hx_eq⟩ := List.mem_map.mp (by simpa [applyCustomerUpdate] using hc2mem'.1)
  have hupper : c2.CustCode ≤ c.CustCode := by
    by_cases hx : x.CustCode = c.CustCode
    · rw [← hx_eq, patchCustomer_CustCode, hx]
    · have hxeq : patchCustomer c.CustCode n1 n2 n3 x = x := patchCustomer_of_ne _ _ _ _ _ hx
      rw [hxeq] at hx_eq
      subst hx_eq
      exact hmax x hx_mem hc2mem'.2
  have hlower : c.CustCode ≤ c2.CustCode := by
    have := hc2max _ hpc_filter
    rwa [patchCustomer_CustCode] at this
  exact le_antisymm hupper hlower

/-- C3: customer resolution is idempotent — two submissions carrying the
same customer name and contact strings that normalize to the same 10-digit
contact resolve to the same customer id and the second submission adds no
customer row; and when the (name, normalized contact) pair is brand new, the
first submission creates exactly one new active customer row carrying that
name and normalized contact. -/
theorem C3_customer_resolution_idempotent
    (inp1 inp2 : OrderInput) (custId1 custId2 : Int) (db : DB)
    (hg1 : hcmGuard inp1 = true) (hg2 : hcmGuard inp2 = true)
    (hname : inp2.custName = inp1.custName)
    (hnorm : normalizeContact inp2.contact = normalizeContact inp1.contact) :
    ∃ id1 s1 id2 s2,
      handleCustomerManagement inp1 custId1 { db := db, fuel := none } = .ok (id1, s1) ∧
      handleCustomerManagement inp2 custId2 s1 = .ok (id2, s2) ∧
      id2 = id1 ∧
      s2.db.tblCustomer.length = s1.db.tblCustomer.length ∧
      (customerLookup db inp1.custName (normalizeContact inp1.contact) = none →
        s1.db.tblCustomer.length = db.tblCustomer.length + 1 ∧
        ∃ newc ∈ s1.db.tblCustomer, newc.CustCode = id1 ∧ newc.Active = 1 ∧
          newc.CustName = inp1.custName ∧
          newc.ContactNo = normalizeContact inp1.contact) := by
  rcases hcl : customerLookup db inp1.custName (normalizeContact inp1.contact) with _ | c
  · -- brand-new pair: the first submission inserts, the second finds the insert
    have h1 := hcm_create inp1 custId1 db hg1 hcl
    set newc : CustomerRow := { CustCode := db.custIdentity, CustName := inp1.custName, Add1 := jsOrStr inp1.address (jsOrStr inp1.flatNo ""), ContactNo := normalizeContact inp1.contact, Phone := normalizeContact inp1.contact, Fax := jsOrStr inp1.flatNo "", Active := 1 } with hnewc
    have hfilter_db : db.tblCustomer.filter
        (custMatches inp1.custName (normalizeContact inp1.contact)) = [] := by
      rw [List.filter_eq_nil_iff]
      intro b hb
      have := customerLookup_none db _ _ hcl b hb
      simp [this]
    have hnewmatch : custMatches inp1.custName (normalizeContact inp1.contact) newc = true := by
      rw [hnewc]
      unfold custMatches
      simp
    have hlook2 : customerLookup { db with tblCustomer := db.tblCustomer ++ [newc], custIdentity := db.custIdentity + 1 } inp2.custName (normalizeContact inp2.contact) = some newc := by
      rw [hname, hnorm]
      unfold customerLookup
      simp only [List.filter_append, hfilter_db, List.nil_append,
        List.filter_cons, hnewmatch, if_true, List.filter_nil]
      rfl
    have h2 := hcm_found inp2 custId2 _ newc hg2 hlook2
    refine ⟨db.custIdentity, _, newc.CustCode, _, h1, h2, by rw [hnewc], ?_, ?_⟩
    · simp [applyCustomerUpdate_length]
    · intro _
      refine ⟨by simp, newc, by simp, by rw [hnewc], by rw [hnewc], by rw [hnewc], by rw [hnewc]⟩
  · -- existing pair: the second submission finds the same (possibly patched) row
    have h1 := hcm_found inp1 custId1 db c hg1 hcl
    have hn1 : (if c.ContactNo != normalizeContact inp1.contact
        then some (normalizeContact inp1.contact) else none).getD c.ContactNo
        = normalizeContact inp1.contact := by
      by_cases hc : c.ContactNo = normalizeContact inp1.contact
      · simp [hc]
      · have hbne : (c.ContactNo != normalizeContact inp1.contact) = true := by
          simp [bne_iff_ne, hc]
        simp [hbne]
    obtain ⟨c2, hlook2, hcode⟩ := customerLookup_after_patch db inp1.custName
      (normalizeContact inp1.contact) c hcl
      (if c.ContactNo != normalizeContact inp1.contact
        then some (normalizeContact inp1.contact) else none)
      (if c.Phone != normalizeContact inp1.contact && c.Phone == ""
        then some (normalizeContact inp1.contact) else none)
      (if c.Add1 != jsOrStr inp1.address (jsOrStr inp1.flatNo "")
        then some (jsOrStr inp1.address (jsOrStr inp1.flatNo "")) else none) hn1
    have hlook2' : customerLookup { db with tblCustomer := applyCustomerUpdate c.CustCode (if c.ContactNo != normalizeContact inp1.contact then some (normalizeContact inp1.contact) else none) (if c.Phone != normalizeContact inp1.contact && c.Phone == "" then some (normalizeContact inp1.contact) else none) (if c.Add1 != jsOrStr inp1.address (jsOrStr inp1.flatNo "") then some (jsOrStr inp1.address (jsOrStr inp1.flatNo "")) else none) db.tblCustomer } inp2.custName (normalizeContact inp2.contact) = some c2 := by
      rw [hname, hnorm]
      exact hlook2
    have h2 := hcm_found inp2 custId2 _ c2 hg2 hlook2'
    refine ⟨c.CustCode, _, c2.CustCode, _, h1, h2, hcode, ?_, ?_⟩
    · simp [applyCustomerUpdate_length]
    · intro habs
      simp at habs

/-- Witness for C3: resubmitting the same name with contact strings "12" and
"0000000012" (same normalized form) resolves both to customer 1 and keeps a
single customer row; the first submission created exactly that one row. -/
theorem C3_customer_resolution_idempotent_witness :
    ∃ id1 s1 id2 s2,
      handleCustomerManagement exInpNew 0 { db := exDb, fuel := none } = .ok (id1, s1) ∧
      handleCustomerManagement { exInpNew with contact := "2345678901" } 0 s1 = .ok (id2, s2) ∧
      id2 = id1 ∧
      s2.db.tblCustomer.length = s1.db.tblCustomer.length ∧
      (customerLookup exDb exInpNew.custName (normalizeContact exInpNew.contact) = none →
        s1.db.tblCustomer.length = exDb.tblCustomer.length + 1 ∧
        ∃ newc ∈ s1.db.tblCustomer, newc.CustCode = id1 ∧ newc.Active = 1 ∧
          newc.CustName = exInpNew.custName ∧
          newc.ContactNo = normalizeContact exInpNew.contact) :=
  C3_customer_resolution_idempotent exInpNew { exInpNew with contact := "2345678901" }
    0 0 exDb (by decide) (by decide) rfl (by decide)

end PosNode

namespace PosNode

/-! ## Run lemmas for the loops of the three branches (no fault injected) -/

theorem insertOrderDetails_run (n : Int) (items : List Item) (db : DB) :
    insertOrderDetails n items { db := db, fuel := none }
      = .ok ((), { db := { db with tblOrder_D := db.tblOrder_D ++ items.map (mkOrderD n) }, fuel := none }) := by
  induction items generalizing db with
  | nil => simp [insertOrderDetails, M_pure_apply]
  | cons item rest ih =>
    simp only [insertOrderDetails, M_bind_apply, sqlRun_fuelNone]
    rw [ih]
    simp

theorem insertKotDetails_run (n : Int) (items : List Item) (db : DB) :
    insertKotDetails n items { db := db, fuel := none }
      = .ok ((), { db := { db with tblKot_D := db.tblKot_D ++ items.map (mkOrderD n) }, fuel := none }) := by
  induction items generalizing db with
  | nil => simp [insertKotDetails, M_pure_apply]
  | cons item rest ih =>
    simp only [insertKotDetails, M_bind_apply, sqlRun_fuelNone]
    rw [ih]
    simp

theorem assignOrderPrinters_run (n : Int) (items : List Item) (db : DB) :
    assignOrderPrinters n items { db := db, fuel := none }
      = .ok ((), { db := { db with tblPrinter := db.tblPrinter ++ items.map (fun item => { OrderNo := n, SlNo := item.slNo.getD 0, ItemId := item.itemCode.getD 0, Printer := printeLookup db.tblItemMaster (item.itemCode.getD 0) }) }, fuel := none }) := by
  induction items generalizing db with
  | nil => simp [assignOrderPrinters, M_pure_apply]
  | cons item rest ih =>
    simp only [assignOrderPrinters, M_bind_apply, sqlRun_fuelNone]
    rw [ih]
    simp

theorem assignKotPrinters_run (n : Int) (items : List Item) (db : DB) :
    assignKotPrinters n items { db := db, fuel := none }
      = .ok ((), { db := { db with tblKotPrinter := db.tblKotPrinter ++ items.map (fun item => { OrderNo := n, SlNo := item.slNo.getD 0, ItemId := item.itemCode.getD 0, Printer := printeLookup db.tblItemMaster (item.itemCode.getD 0) }) }, fuel := none }) := by
  induction items generalizing db with
  | nil => simp [assignKotPrinters, M_pure_apply]
  | cons item rest ih =>
    simp only [assignKotPrinters, M_bind_apply, sqlRun_fuelNone]
    rw [ih]
    simp

theorem backfillOrderPrinters_run (env : Env) (n : Int) (db : DB) :
    backfillOrderPrinters env n { db := db, fuel := none }
      = .ok ((), { db := { db with tblPrinter := db.tblPrinter.map (fun p => if p.Printer == "" && p.OrderNo == n then { p with Printer := jsOrStr env.ORDER_PRINTER "DefaultPrinter" } else p) }, fuel := none }) := rfl

theorem backfillKotPrinters_run (env : Env) (n : Int) (db : DB) :
    backfillKotPrinters env n { db := db, fuel := none }
      = .ok ((), { db := { db with tblKotPrinter := db.tblKotPrinter.map (fun p => if p.Printer == "" && p.OrderNo == n then { p with Printer := jsOrStr env.KOT_PRINTER "KitchenPrinter" } else p) }, fuel := none }) := rfl

theorem updateTableStatus_run (tid : Int) (db : DB) :
    updateTableStatus tid { db := db, fuel := none }
      = .ok ((), { db := { db with tblTable := db.tblTable.map (fun t => if t.TableId == tid then { t with Status := if (db.tblSeat.filter (fun s => s.TableId == tid && s.Status == 0)).length > 0 then (1 : Int) else 2 } else t) }, fuel := none }) := by
  simp only [updateTableStatus, M_bind_apply, sqlRun_fuelNone, M_pure_apply]

theorem purgeHoldedOrder_run (n : Int) (db : DB) :
    purgeHoldedOrder n { db := db, fuel := none }
      = .ok ((), { db := { db with tblTempOrder_M := db.tblTempOrder_M.filter (fun m => !(m == n)), tblTempOrder_D := db.tblTempOrder_D.filter (fun m => !(m == n)) }, fuel := none }) := rfl

theorem occupyMany_nil (tid : Int) (s : SeatRow) : occupyMany [] tid s = s := by
  unfold occupyMany
  simp

theorem occupyMany_cons_comp (n tid : Int) (ids : List Int) (s : SeatRow) :
    occupyMany ids tid (if s.SeatId == n && s.TableId == tid then { s with Status := 1 } else s)
      = occupyMany (n :: ids) tid s := by
  unfold occupyMany
  by_cases h1 : s.SeatId = n
  · by_cases h2 : s.TableId = tid
    · simp [h1, h2]
    · simp [h1, h2]
  · have hb1 : (s.SeatId == n) = false := by simp [h1]
    by_cases h2 : s.TableId = tid
    · simp [hb1, h2, h1]
    · simp [hb1, h2, h1]

theorem validSeatIds_nil : validSeatIds [] = [] := rfl

theorem validSeatIds_cons_none (l : List (Option Int)) :
    validSeatIds (none :: l) = validSeatIds l := rfl

theorem validSeatIds_cons_pos (n : Int) (l : List (Option Int)) (h : 0 < n) :
    validSeatIds (some n :: l) = n :: validSeatIds l := by
  unfold validSeatIds
  simp [List.filterMap_cons, h]

theorem validSeatIds_cons_nonpos (n : Int) (l : List (Option Int)) (h : ¬ 0 < n) :
    validSeatIds (some n :: l) = validSeatIds l := by
  unfold validSeatIds
  simp [List.filterMap_cons, h]

theorem occupySeatsLoop_run (tid : Int) (l : List (Option Int)) (db : DB) :
    occupySeatsLoop tid l { db := db, fuel := none }
      = .ok ((), { db := { db with tblSeat := db.tblSeat.map (occupyMany (validSeatIds l) tid) }, fuel := none }) := by
  induction l generalizing db with
  | nil =>
    simp only [occupySeatsLoop, M_pure_apply, validSeatIds_nil]
    have hfn : occupyMany [] tid = fun s => s := funext (occupyMany_nil tid)
    have : db.tblSeat.map (occupyMany [] tid) = db.tblSeat := by
      rw [hfn]
      simp
    rw [this]
  | cons seatId rest ih =>
    rcases seatId with _ | n
    · simp only [occupySeatsLoop, M_bind_apply, M_pure_apply, validSeatIds_cons_none]
      exact ih db
    · by_cases hn : 0 < n
      · simp only [occupySeatsLoop, hn, if_true, M_bind_apply, sqlRun_fuelNone, M_pure_apply]
        rw [ih]
        rw [validSeatIds_cons_pos n rest hn]
        simp only [occupySeat, List.map_map]
        have : (occupyMany (validSeatIds rest) tid ∘ fun s =>
            if s.SeatId == n && s.TableId == tid then { s with Status := 1 } else s)
            = occupyMany (n :: validSeatIds rest) tid := by
          funext s
          exact occupyMany_cons_comp n tid (validSeatIds rest) s
        rw [this]
      · simp only [occupySeatsLoop, hn, if_false, M_bind_apply, M_pure_apply,
          validSeatIds_cons_nonpos n rest hn]
        exact ih db

theorem insertOrderSeatsLoop_run (env : Env) (orderNo tid : Int)
    (l : List (Option Int)) (db : DB) :
    insertOrderSeatsLoop env orderNo tid l { db := db, fuel := none }
      = .ok ((), { db := { db with tblOrder_Seats := db.tblOrder_Seats ++ (validSeatIds l).filterMap (fun n => (seatFind db.tblSeat n tid).map (fun sd => { OrderNo := orderNo, SeatName := sd.SeatName, SeatId := sd.SeatId, TableId := sd.TableId, Status := 0, Counter := jsOrStr env.COUNTER_NAME "DefaultCounter" })) }, fuel := none }) := by
  induction l generalizing db with
  | nil => simp [insertOrderSeatsLoop, M_pure_apply, validSeatIds_nil]
  | cons seatId rest ih =>
    rcases seatId with _ | n
    · simp only [insertOrderSeatsLoop, M_bind_apply, M_pure_apply, validSeatIds_cons_none]
      exact ih db
    · by_cases hn : 0 < n
      · simp only [insertOrderSeatsLoop, hn, if_true, M_bind_apply, sqlRun_fuelNone,
          M_pure_apply, validSeatIds_cons_pos n rest hn]
        rcases hfind : seatFind db.tblSeat n tid with _ | sd
        · simp only [hfind, M_bind_apply, M_pure_apply]
          rw [ih]
          simp [List.filterMap_cons, hfind]
        · simp only [hfind, M_bind_apply, sqlRun_fuelNone, M_pure_apply]
          rw [ih]
          simp [List.filterMap_cons, hfind]
      · simp only [insertOrderSeatsLoop, hn, if_false, M_bind_apply, M_pure_apply,
          validSeatIds_cons_nonpos n rest hn]
        exact ih db

end PosNode

namespace PosNode

/-! ## Frame lemmas: the seat sections only touch seat-related tables -/

theorem processSelectedSeatsNew_frame (env : Env) (orderNo tid : Int)
    (l : List (Option Int)) (db : DB) :
    ∃ seats oseats, processSelectedSeatsNew env orderNo tid l { db := db, fuel := none }
      = .ok ((), { db := { db with tblSeat := seats, tblOrder_Seats := oseats }, fuel := none }) := by
  induction l generalizing db with
  | nil => exact ⟨db.tblSeat, db.tblOrder_Seats, by simp [processSelectedSeatsNew, M_pure_apply]⟩
  | cons seatId rest ih =>
    rcases seatId with _ | n
    · simp only [processSelectedSeatsNew, M_bind_apply, M_pure_apply]
      exact ih db
    · by_cases hn : 0 < n
      · simp only [processSelectedSeatsNew, hn, if_true, M_bind_apply, sqlRun_fuelNone,
          M_pure_apply]
        rcases hfind : seatFind (occupySeat n tid db.tblSeat) n tid with _ | sd
        · simp only [hfind, M_bind_apply, M_pure_apply]
          obtain ⟨s', o', h⟩ := ih { db with tblSeat := occupySeat n tid db.tblSeat }
          rw [h]
          exact ⟨s', o', rfl⟩
        · simp only [hfind, M_bind_apply, sqlRun_fuelNone, M_pure_apply]
          obtain ⟨s', o', h⟩ := ih { db with
            tblSeat := occupySeat n tid db.tblSeat,
            tblOrder_Seats := db.tblOrder_Seats ++ [{ OrderNo := orderNo, SeatName := sd.SeatName, SeatId := sd.SeatId, TableId := sd.TableId, Status := 0, Counter := jsOrStr env.COUNTER_NAME "DefaultCounter" }] }
          rw [h]
          exact ⟨s', o', rfl⟩
      · simp only [processSelectedSeatsNew, hn, if_false, M_bind_apply, M_pure_apply]
        exact ih db

theorem stagedSeatLoop_frame (env : Env) (orderNo : Int)
    (staged : List TempSeatRow) (db : DB) :
    ∃ seats oseats, stagedSeatLoop env orderNo staged { db := db, fuel := none }
      = .ok ((), { db := { db with tblSeat := seats, tblOrder_Seats := oseats }, fuel := none }) := by
  induction staged generalizing db with
  | nil => exact ⟨db.tblSeat, db.tblOrder_Seats, by simp [stagedSeatLoop, M_pure_apply]⟩
  | cons seat rest ih =>
    simp only [stagedSeatLoop, M_bind_apply, sqlRun_fuelNone, M_pure_apply]
    obtain ⟨s', o', h⟩ := ih { db with
      tblOrder_Seats := db.tblOrder_Seats ++ [{ OrderNo := orderNo, SeatName := seat.SeatName, SeatId := seat.SeatId, TableId := seat.TableId, Status := 0, Counter := jsOrStr env.COUNTER_NAME "DefaultCounter" }],
      tblSeat := occupySeat seat.SeatId seat.TableId db.tblSeat }
    rw [h]
    exact ⟨s', o', rfl⟩

theorem processStagedSeats_frame (env : Env) (orderNo : Int) (db : DB) :
    ∃ seats oseats temps, processStagedSeats env orderNo { db := db, fuel := none }
      = .ok ((), { db := { db with tblSeat := seats, tblOrder_Seats := oseats, tblTemp_Seats := temps }, fuel := none }) := by
  simp only [processStagedSeats, M_bind_apply, sqlRun_fuelNone]
  obtain ⟨s', o', h⟩ := stagedSeatLoop_frame env orderNo
    (db.tblTemp_Seats.filter (fun t => t.Counter == jsOrStr env.COUNTER_NAME "DefaultCounter")) db
  rw [h]
  simp only [M_bind_apply, sqlRun_fuelNone, M_pure_apply]
  exact ⟨s', o', _, rfl⟩

/-! ## The MAX(OrderNo) fold -/

theorem maxOrderNoOpt_fold (l : List Int) (a : Int) :
    ∃ m, l.foldl (fun acc n =>
        match acc with
        | none => some n
        | some m => some (max m n)) (some a) = some m
      ∧ (m = a ∨ m ∈ l) ∧ a ≤ m ∧ ∀ b ∈ l, b ≤ m := by
  induction l generalizing a with
  | nil => exact ⟨a, rfl, Or.inl rfl, le_refl _, by simp⟩
  | cons x xs ih =>
    simp only [List.foldl_cons]
    obtain ⟨m, hm, hmem, hge, hall⟩ := ih (max a x)
    refine ⟨m, hm, ?_, le_trans (le_max_left _ _) hge, ?_⟩
    · rcases hmem with h' | h'
      · rcases max_choice a x with hc | hc
        · exact Or.inl (h'.trans hc)
        · exact Or.inr (by simp [h'.trans hc])
      · exact Or.inr (List.mem_cons_of_mem _ h')
    · intro b hb
      rcases List.mem_cons.mp hb with h' | h'
      · subst h'
        exact le_trans (le_max_right _ _) hge
      · exact hall b h'

theorem maxOrderNoOpt_nil : maxOrderNoOpt [] = none := rfl

theorem maxOrderNoOpt_spec (l : List Int) (m : Int) (h : maxOrderNoOpt l = some m) :
    m ∈ l ∧ ∀ b ∈ l, b ≤ m := by
  cases l with
  | nil => simp [maxOrderNoOpt_nil] at h
  | cons x xs =>
    unfold maxOrderNoOpt at h
    simp only [List.foldl_cons] at h
    obtain ⟨m', hm', hmem, hge, hall⟩ := maxOrderNoOpt_fold xs x
    rw [hm'] at h
    cases h
    constructor
    · rcases hmem with h' | h'
      · exact h' ▸ List.mem_cons_self _ _
      · exact List.mem_cons_of_mem _ h'
    · intro b hb
      rcases List.mem_cons.mp hb with h' | h'
      · subst h'; exact hge
      · exact hall b h'

theorem maxOrderNoOpt_append_lt (l : List Int) (v : Int) (h : ∀ x ∈ l, x < v) :
    maxOrderNoOpt (l ++ [v]) = some v := by
  cases l with
  | nil => rfl
  | cons x xs =>
    unfold maxOrderNoOpt
    rw [List.foldl_append]
    obtain ⟨m', hm', hmem, hge, hall⟩ := maxOrderNoOpt_fold xs x
    have : (x :: xs).foldl (fun acc n =>
        match acc with
        | none => some n
        | some m => some (max m n)) none = some m' := by
      simp only [List.foldl_cons]
      exact hm'
    rw [this]
    simp only [List.foldl_cons, List.foldl_nil]
    have hmlt : m' < v := by
      rcases hmem with h' | h'
      · exact h' ▸ h x (List.mem_cons_self _ _)
      · exact h m' (List.mem_cons_of_mem _ h')
    rw [max_eq_right (le_of_lt hmlt)]

/-! ## Totality of the resolver under no fault -/

theorem hcm_run_none (inp : OrderInput) (custId : Int) (db : DB) :
    ∃ cid custs seed, handleCustomerManagement inp custId { db := db, fuel := none }
      = .ok (cid, { db := { db with tblCustomer := custs, custIdentity := seed }, fuel := none }) := by
  by_cases hg : hcmGuard inp = true
  · rcases hcl : customerLookup db inp.custName (normalizeContact inp.contact) with _ | c
    · exact ⟨_, _, _, hcm_create inp custId db hg hcl⟩
    · exact ⟨_, _, _, hcm_found inp custId db c hg hcl⟩
  · have hg' : hcmGuard inp = false := by
      cases h : hcmGuard inp
      · rfl
      · exact absurd h hg
    exact ⟨jsOrInt custId 0, db.tblCustomer, db.custIdentity, hcm_skip inp custId _ hg'⟩

end PosNode

namespace PosNode

/-! ## Section lemmas for the KOT branch -/

theorem kotSeatUpdates_frame (tid : Int) (sel : Option (List (Option Int))) (db : DB) :
    ∃ seats tables, kotSeatUpdates tid sel { db := db, fuel := none }
      = .ok ((), { db := { db with tblSeat := seats, tblTable := tables }, fuel := none }) := by
  rcases sel with _ | l
  · unfold kotSeatUpdates
    by_cases h : tid ≠ 0
    · have hb : (tid != 0) = true := by simp [bne_iff_ne, h]
      simp only [hb, if_true, sqlRun_fuelNone]
      exact ⟨db.tblSeat, _, rfl⟩
    · have hb : (tid != 0) = false := by
        simp only [ne_eq, not_not] at h
        simp [h]
      simp only [hb, Bool.false_eq_true, if_false, M_pure_apply]
      exact ⟨db.tblSeat, db.tblTable, rfl⟩
  · rcases l with _ | ⟨s, rest⟩
    · unfold kotSeatUpdates
      by_cases h : tid ≠ 0
      · have hb : (tid != 0) = true := by simp [bne_iff_ne, h]
        simp only [hb, if_true, sqlRun_fuelNone]
        exact ⟨db.tblSeat, _, rfl⟩
      · have hb : (tid != 0) = false := by
          simp only [ne_eq, not_not] at h
          simp [h]
        simp only [hb, Bool.false_eq_true, if_false, M_pure_apply]
        exact ⟨db.tblSeat, db.tblTable, rfl⟩
    · refine ⟨db.tblSeat.map (occupyMany (validSeatIds (s :: rest)) tid), db.tblTable, ?_⟩
      rw [show kotSeatUpdates tid (some (s :: rest)) = occupySeatsLoop tid (s :: rest) from rfl]
      rw [occupySeatsLoop_run]

theorem backfill_append (X : Int) (defName : String) (old rows : List PrinterRow)
    (hold : ∀ p ∈ old, (p.OrderNo == X) = false) :
    (old ++ rows).map (fun p => if p.Printer == "" && p.OrderNo == X then { p with Printer := defName } else p)
      = old ++ rows.map (fun p => if p.Printer == "" && p.OrderNo == X then { p with Printer := defName } else p) := by
  rw [List.map_append]
  congr 1
  have h1 : old.map (fun p => if p.Printer == "" && p.OrderNo == X then { p with Printer := defName } else p)
      = old.map (fun p => p) :=
    List.map_congr_left (fun p hp => by simp [hold p hp])
  rw [h1]
  simp

theorem backfill_new_rows (X : Int) (defName : String) (items : List Item)
    (master : List ItemMasterRow) :
    (items.map (fun item => ({ OrderNo := X, SlNo := item.slNo.getD 0, ItemId := item.itemCode.getD 0, Printer := printeLookup master (item.itemCode.getD 0) } : PrinterRow))).map (fun p => if p.Printer == "" && p.OrderNo == X then { p with Printer := defName } else p)
      = items.map (fun item => { OrderNo := X, SlNo := item.slNo.getD 0, ItemId := item.itemCode.getD 0, Printer := jsOrStr (printeLookup master (item.itemCode.getD 0)) defName }) := by
  rw [List.map_map]
  apply List.map_congr_left
  intro item _
  simp only [Function.comp]
  by_cases h : printeLookup master (item.itemCode.getD 0) = ""
  · simp [h, jsOrStr]
  · simp [h, jsOrStr]

theorem kot_header_map_comp (X tid : Int) (tno : String) (sid : Option Int)
    (cid : Int) (cname contact addr flat : String) (l : List OrderM) :
    (l.map (fun r => if r.OrderNo == X then { r with TableId := tid, TableNo := tno, SeatId := sid } else r)).map (fun r => if r.OrderNo == X then { r with CustId := cid, CustName := cname, Contact := contact, Address := addr, Flat := flat } else r)
      = l.map (fun r => if r.OrderNo == X then { r with TableId := tid, TableNo := tno, SeatId := sid, CustId := cid, CustName := cname, Contact := contact, Address := addr, Flat := flat } else r) := by
  rw [List.map_map]
  apply List.map_congr_left
  intro r _
  simp only [Function.comp]
  by_cases h : r.OrderNo = X
  · simp [h]
  · simp [h]

theorem kotOrderBranch_run (env : Env) (inp : OrderInput)
    (orderNo option finalCustId deliveryBoyId tableId : Int) (total : Rat)
    (orderType : String) (db : DB) :
    ∃ db', kotOrderBranch env inp orderNo option finalCustId deliveryBoyId tableId total orderType { db := db, fuel := none }
      = .ok (orderNo, { db := db', fuel := none }) ∧
      db'.tblOrder_M = db.tblOrder_M.map (fun r => if r.OrderNo == orderNo then { r with TableId := tableId, TableNo := inp.tableNo, SeatId := getSeatIdForOrderMaster inp.selectedSeats, CustId := finalCustId, CustName := inp.custName, Contact := inp.contact, Address := inp.address, Flat := inp.flatNo } else r) ∧
      db'.tblOrder_D = db.tblOrder_D ∧
      db'.tblKot_M = db.tblKot_M ++ [{ OrderNo := orderNo, EDate := inp.date, Time := inp.time, Options := option, CustId := finalCustId, CustName := inp.custName, Flat := inp.flatNo, Address := inp.address, Contact := inp.contact, DelBoy := deliveryBoyId, TableId := tableId, TableNo := inp.tableNo, Remarks := inp.remarks, Total := total, Saled := "No", Status := orderType }] ∧
      db'.tblKot_D = db.tblKot_D ++ inp.items.map (mkOrderD orderNo) ∧
      db'.tblKotPrinter = db.tblKotPrinter.filter (fun p => !(p.OrderNo == orderNo)) ++ inp.items.map (fun item => { OrderNo := orderNo, SlNo := item.slNo.getD 0, ItemId := item.itemCode.getD 0, Printer := jsOrStr (printeLookup db.tblItemMaster (item.itemCode.getD 0)) (jsOrStr env.KOT_PRINTER "KitchenPrinter") }) := by
  unfold kotOrderBranch
  simp only [M_bind_apply, sqlRun_fuelNone]
  obtain ⟨seats, tables, hseat⟩ := kotSeatUpdates_frame tableId inp.selectedSeats
    { db with tblOrder_M := (db.tblOrder_M.map (fun r => if r.OrderNo == orderNo then { r with TableId := tableId, TableNo := inp.tableNo, SeatId := getSeatIdForOrderMaster inp.selectedSeats } else r)).map (fun r => if r.OrderNo == orderNo then { r with CustId := finalCustId, CustName := inp.custName, Contact := inp.contact, Address := inp.address, Flat := inp.flatNo } else r) }
  rw [hseat]
  simp only [M_bind_apply, sqlRun_fuelNone]
  rw [insertKotDetails_run]
  simp only [M_bind_apply, sqlRun_fuelNone]
  rw [assignKotPrinters_run]
  simp only [M_bind_apply, sqlRun_fuelNone]
  rw [backfillKotPrinters_run]
  simp only [M_bind_apply, M_pure_apply]
  refine ⟨_, rfl, ?_, rfl, rfl, rfl, ?_⟩
  · exact kot_header_map_comp orderNo tableId inp.tableNo
      (getSeatIdForOrderMaster inp.selectedSeats) finalCustId inp.custName
      inp.contact inp.address inp.flatNo db.tblOrder_M
  · rw [backfill_append]
    · rw [backfill_new_rows]
    · intro p hp
      have := List.of_mem_filter hp
      revert this
      cases h : (p.OrderNo == orderNo) <;> simp

end PosNode


namespace PosNode

/-- A header UPDATE whose WHERE clause matches no row leaves the table
unchanged. -/
theorem map_if_orderNo_no_match (X : Int) (f : OrderM → OrderM) (l : List OrderM)
    (h : ∀ r ∈ l, r.OrderNo ≠ X) :
    l.map (fun r => if r.OrderNo == X then f r else r) = l := by
  have h1 : l.map (fun r => if r.OrderNo == X then f r else r) = l.map (fun r => r) :=
    List.map_congr_left (fun r hr => by simp [h r hr])
  rw [h1]
  simp

/-- C8: a KOT submission on order X leaves X's existing `tblOrder_D` rows
untouched, appends exactly one parallel KOT header row and one KOT line per
submitted item, rewrites X's header table/seat and customer/contact fields in
place, and resolves the KOT printer assignments against the kitchen default
`KOT_PRINTER || "KitchenPrinter"` (not the order default). -/
theorem C8_kot_parallel_snapshot (env : Env) (inp : OrderInput) (db : DB)
    (hst : inp.status = "KOT") :
    ∃ res db' cid,
      processOrder env none inp db = (db', .ok res) ∧
      db'.tblOrder_D = db.tblOrder_D ∧
      db'.tblKot_M = db.tblKot_M ++ [{ OrderNo := inp.orderNo.getD 0, EDate := inp.date, Time := inp.time, Options := inp.option.getD 0, CustId := cid, CustName := inp.custName, Flat := inp.flatNo, Address := inp.address, Contact := inp.contact, DelBoy := inp.deliveryBoyId.getD 0, TableId := inp.tableId.getD 0, TableNo := inp.tableNo, Remarks := inp.remarks, Total := inp.total.getD 0, Saled := "No", Status := orderTypeOf (inp.option.getD 0) }] ∧
      db'.tblKot_D = db.tblKot_D ++ inp.items.map (mkOrderD (inp.orderNo.getD 0)) ∧
      db'.tblOrder_M = db.tblOrder_M.map (fun r => if r.OrderNo == inp.orderNo.getD 0 then { r with TableId := inp.tableId.getD 0, TableNo := inp.tableNo, SeatId := getSeatIdForOrderMaster inp.selectedSeats, CustId := cid, CustName := inp.custName, Contact := inp.contact, Address := inp.address, Flat := inp.flatNo } else r) ∧
      db'.tblKotPrinter = db.tblKotPrinter.filter (fun p => !(p.OrderNo == inp.orderNo.getD 0)) ++ inp.items.map (fun item => { OrderNo := inp.orderNo.getD 0, SlNo := item.slNo.getD 0, ItemId := item.itemCode.getD 0, Printer := jsOrStr (printeLookup db.tblItemMaster (item.itemCode.getD 0)) (jsOrStr env.KOT_PRINTER "KitchenPrinter") }) := by
  obtain ⟨cid, custs, seed, h1⟩ := hcm_run_none inp (inp.custId.getD 0) db
  obtain ⟨db', hrun, hM, hD, hKM, hKD, hKP⟩ := kotOrderBranch_run env inp
    (inp.orderNo.getD 0) (inp.option.getD 0) cid (inp.deliveryBoyId.getD 0)
    (inp.tableId.getD 0) (inp.total.getD 0) (orderTypeOf (inp.option.getD 0))
    { db with tblCustomer := custs, custIdentity := seed }
  unfold processOrder processOrderBody
  rw [hst]
  simp only [show (("KOT" : String) == "NEW") = false from rfl,
    show (("KOT" : String) == "UPDATED") = false from rfl,
    show (("KOT" : String) == "KOT") = true from rfl,
    Bool.false_eq_true, if_false, if_true,
    M_bind_apply_ok h1, M_bind_apply_ok hrun, M_pure_apply]
  exact ⟨_, db', cid, rfl, hD, hKM, hKD, hM, hKP⟩

/-- Witness for C8 at a concrete KOT submission on an existing order. -/
theorem C8_kot_parallel_snapshot_witness :
    ∃ res db' cid,
      processOrder exEnv none exInpKot exDbOrder1 = (db', .ok res) ∧
      db'.tblOrder_D = exDbOrder1.tblOrder_D ∧
      db'.tblKot_M = exDbOrder1.tblKot_M ++ [{ OrderNo := exInpKot.orderNo.getD 0, EDate := exInpKot.date, Time := exInpKot.time, Options := exInpKot.option.getD 0, CustId := cid, CustName := exInpKot.custName, Flat := exInpKot.flatNo, Address := exInpKot.address, Contact := exInpKot.contact, DelBoy := exInpKot.deliveryBoyId.getD 0, TableId := exInpKot.tableId.getD 0, TableNo := exInpKot.tableNo, Remarks := exInpKot.remarks, Total := exInpKot.total.getD 0, Saled := "No", Status := orderTypeOf (exInpKot.option.getD 0) }] ∧
      db'.tblKot_D = exDbOrder1.tblKot_D ++ exInpKot.items.map (mkOrderD (exInpKot.orderNo.getD 0)) ∧
      db'.tblOrder_M = exDbOrder1.tblOrder_M.map (fun r => if r.OrderNo == exInpKot.orderNo.getD 0 then { r with TableId := exInpKot.tableId.getD 0, TableNo := exInpKot.tableNo, SeatId := getSeatIdForOrderMaster exInpKot.selectedSeats, CustId := cid, CustName := exInpKot.custName, Contact := exInpKot.contact, Address := exInpKot.address, Flat := exInpKot.flatNo } else r) ∧
      db'.tblKotPrinter = exDbOrder1.tblKotPrinter.filter (fun p => !(p.OrderNo == exInpKot.orderNo.getD 0)) ++ exInpKot.items.map (fun item => { OrderNo := exInpKot.orderNo.getD 0, SlNo := item.slNo.getD 0, ItemId := item.itemCode.getD 0, Printer := jsOrStr (printeLookup exDbOrder1.tblItemMaster (item.itemCode.getD 0)) (jsOrStr exEnv.KOT_PRINTER "KitchenPrinter") }) :=
  C8_kot_parallel_snapshot exEnv exInpKot exDbOrder1 rfl

theorem updatedOrderBranch_notFound (env : Env) (inp : OrderInput)
    (orderNo option finalCustId deliveryBoyId tableId : Int) (total : Rat)
    (orderType : String) (db : DB)
    (hfind : db.tblOrder_M.find? (fun r => r.OrderNo == orderNo) = none) :
    updatedOrderBranch env inp orderNo option finalCustId deliveryBoyId tableId total orderType { db := db, fuel := none }
      = .error (JsError.app ("Order " ++ toString orderNo ++ " not found") 404) := by
  unfold updatedOrderBranch
  simp only [M_bind_apply, sqlRun_fuelNone, hfind, throwErr_apply]

/-- C9 (implicit): a KOT submission performs no existence check on its order
number — when no header row carries it, the header UPDATEs affect zero rows
(the header table is unchanged), yet the KOT header and its per-item KOT
lines are still inserted and the call commits and returns success; the same
submission with status UPDATED instead rolls back and surfaces the
"Order N not found" error. -/
theorem C9_kot_missing_order (env : Env) (inp : OrderInput) (db : DB)
    (hst : inp.status = "KOT")
    (hnone : ∀ r ∈ db.tblOrder_M, r.OrderNo ≠ inp.orderNo.getD 0) :
    ∃ res db',
      processOrder env none inp db = (db', .ok res) ∧
      res.success = true ∧
      db'.tblOrder_M = db.tblOrder_M ∧
      db'.tblKot_M.length = db.tblKot_M.length + 1 ∧
      (db'.tblKot_D.filter (fun r => r.OrderNo == inp.orderNo.getD 0)).length
        = (db.tblKot_D.filter (fun r => r.OrderNo == inp.orderNo.getD 0)).length + inp.items.length ∧
      processOrder env none { inp with status := "UPDATED" } db
        = (db, .error (mapCaughtError (JsError.app ("Order " ++ toString (inp.orderNo.getD 0) ++ " not found") 404))) := by
  obtain ⟨cid, custs, seed, h1⟩ := hcm_run_none inp (inp.custId.getD 0) db
  obtain ⟨db', hrun, hM, hD, hKM, hKD, hKP⟩ := kotOrderBranch_run env inp
    (inp.orderNo.getD 0) (inp.option.getD 0) cid (inp.deliveryBoyId.getD 0)
    (inp.tableId.getD 0) (inp.total.getD 0) (orderTypeOf (inp.option.getD 0))
    { db with tblCustomer := custs, custIdentity := seed }
  have hpo : ∃ res, processOrder env none inp db = (db', .ok res) ∧ res.success = true := by
    unfold processOrder processOrderBody
    rw [hst]
    simp only [show (("KOT" : String) == "NEW") = false from rfl,
      show (("KOT" : String) == "UPDATED") = false from rfl,
      show (("KOT" : String) == "KOT") = true from rfl,
      Bool.false_eq_true, if_false, if_true,
      M_bind_apply_ok h1, M_bind_apply_ok hrun, M_pure_apply]
    exact ⟨_, rfl, rfl⟩
  obtain ⟨res, hpo1, hpo2⟩ := hpo
  refine ⟨res, db', hpo1, hpo2, ?_, ?_, ?_, ?_⟩
  · rw [hM]
    exact map_if_orderNo_no_match _ _ _ hnone
  · rw [hKM]
    simp
  · rw [hKD, List.filter_append, List.length_append]
    congr 1
    have hfil : (inp.items.map (mkOrderD (inp.orderNo.getD 0))).filter
        (fun r => r.OrderNo == inp.orderNo.getD 0)
        = inp.items.map (mkOrderD (inp.orderNo.getD 0)) := by
      rw [List.filter_eq_self]
      intro a ha
      obtain ⟨it, _, hit⟩ := List.mem_map.mp ha
      rw [← hit]
      simp [mkOrderD]
    rw [hfil, List.length_map]
  · obtain ⟨cid2, custs2, seed2, h2⟩ := hcm_run_none { inp with status := "UPDATED" }
      (({ inp with status := "UPDATED" } : OrderInput).custId.getD 0) db
    have hfind : ({ db with tblCustomer := custs2, custIdentity := seed2 } : DB).tblOrder_M.find?
        (fun r => r.OrderNo == inp.orderNo.getD 0) = none := by
      rw [List.find?_eq_none]
      intro r hr
      simp [hnone r hr]
    have hbr := updatedOrderBranch_notFound env { inp with status := "UPDATED" }
      (inp.orderNo.getD 0) (inp.option.getD 0) cid2 (inp.deliveryBoyId.getD 0)
      (inp.tableId.getD 0) (inp.total.getD 0) (orderTypeOf (inp.option.getD 0)) _ hfind
    unfold processOrder processOrderBody
    simp only [show (("UPDATED" : String) == "NEW") = false from rfl,
      show (("UPDATED" : String) == "UPDATED") = true from rfl,
      Bool.false_eq_true, if_false, if_true,
      M_bind_apply_ok h2, M_bind_apply_error hbr]

/-- Witness for C9: a KOT submission for order 1 against a database holding
no orders at all. -/
theorem C9_kot_missing_order_witness :
    ∃ res db',
      processOrder exEnv none exInpKot exDb = (db', .ok res) ∧
      res.success = true ∧
      db'.tblOrder_M = exDb.tblOrder_M ∧
      db'.tblKot_M.length = exDb.tblKot_M.length + 1 ∧
      (db'.tblKot_D.filter (fun r => r.OrderNo == exInpKot.orderNo.getD 0)).length
        = (exDb.tblKot_D.filter (fun r => r.OrderNo == exInpKot.orderNo.getD 0)).length + exInpKot.items.length ∧
      processOrder exEnv none { exInpKot with status := "UPDATED" } exDb
        = (exDb, .error (mapCaughtError (JsError.app ("Order " ++ toString (exInpKot.orderNo.getD 0) ++ " not found") 404))) :=
  C9_kot_missing_order exEnv exInpKot exDb rfl (by decide)

end PosNode

namespace PosNode

/-- Running the UPDATED branch on an already-sold order: line items and
printers are rewritten, but seats, seat assignments and table status are
untouched — while the header rewrite stores `SeatId = NULL`. -/
theorem updatedOrderBranch_run_saled (env : Env) (inp : OrderInput)
    (orderNo option finalCustId deliveryBoyId tableId : Int) (total : Rat)
    (orderType : String) (db : DB) (curr : OrderM)
    (hfind : db.tblOrder_M.find? (fun r => r.OrderNo == orderNo) = some curr)
    (hsaled : curr.Saled = "Yes") :
    ∃ db', updatedOrderBranch env inp orderNo option finalCustId deliveryBoyId tableId total orderType { db := db, fuel := none }
      = .ok (orderNo, { db := db', fuel := none }) ∧
      db'.tblSeat = db.tblSeat ∧
      db'.tblOrder_Seats = db.tblOrder_Seats ∧
      db'.tblTable = db.tblTable ∧
      db'.tblOrder_M = db.tblOrder_M.map (fun r => if r.OrderNo == orderNo then { r with EDate := inp.date, Time := inp.time, Options := option, CustId := finalCustId, CustName := inp.custName, Flat := inp.flatNo, Address := inp.address, Contact := inp.contact, DelBoy := deliveryBoyId, TableId := tableId, TableNo := inp.tableNo, Remarks := inp.remarks, Total := total, Status := orderType, SeatId := none } else r) := by
  unfold updatedOrderBranch
  simp only [M_bind_apply, sqlRun_fuelNone, hfind, hsaled,
    show (("Yes" : String) == "Yes") = true from rfl, Bool.not_true,
    Bool.and_false, Bool.false_eq_true, if_false,
    insertOrderDetails_run, assignOrderPrinters_run, backfillOrderPrinters_run,
    M_pure_apply]
  exact ⟨_, rfl, rfl, rfl, rfl, rfl⟩

/-- Counterexample to C2 as stated: on a finalized order with header
`SeatId = 1`, an UPDATED submission commits successfully and the header's
seat id is overwritten with NULL — it is not left unchanged. -/
theorem C2_saled_update_counterexample :
    (processOrder exEnv none exInpUpd exDbSaled).1.tblOrder_M.map (fun r => r.SeatId) = [none]
    ∧ exDbSaled.tblOrder_M.map (fun r => r.SeatId) = [some 1] :=
  ⟨rfl, rfl⟩

/-- C2 (amended): an UPDATED submission on a finalized ("Saled = Yes") order
leaves every seat's occupancy status, the order's seat-assignment rows and
the table statuses unchanged regardless of the submitted `selectedSeats`,
but it does not leave the header's seat id unchanged: the header rewrite
overwrites `SeatId` with NULL (so it is unchanged only when it was already
NULL). -/
theorem C2_saled_update_freezes_seats_nulls_header_seat (env : Env)
    (inp : OrderInput) (db : DB) (curr : OrderM)
    (hst : inp.status = "UPDATED")
    (hfind : db.tblOrder_M.find? (fun r => r.OrderNo == inp.orderNo.getD 0) = some curr)
    (hsaled : curr.Saled = "Yes") :
    ∃ res db',
      processOrder env none inp db = (db', .ok res) ∧
      db'.tblSeat = db.tblSeat ∧
      db'.tblOrder_Seats = db.tblOrder_Seats ∧
      db'.tblTable = db.tblTable ∧
      ∀ r ∈ db'.tblOrder_M, r.OrderNo = inp.orderNo.getD 0 → r.SeatId = none := by
  obtain ⟨cid, custs, seed, h1⟩ := hcm_run_none inp (inp.custId.getD 0) db
  obtain ⟨db', hrun, hseat, hos, htab, hM⟩ := updatedOrderBranch_run_saled env inp
    (inp.orderNo.getD 0) (inp.option.getD 0) cid (inp.deliveryBoyId.getD 0)
    (inp.tableId.getD 0) (inp.total.getD 0) (orderTypeOf (inp.option.getD 0))
    { db with tblCustomer := custs, custIdentity := seed } curr hfind hsaled
  have hpo : ∃ res, processOrder env none inp db = (db', .ok res) := by
    unfold processOrder processOrderBody
    rw [hst]
    simp only [show (("UPDATED" : String) == "NEW") = false from rfl,
      show (("UPDATED" : String) == "UPDATED") = true from rfl,
      Bool.false_eq_true, if_false, if_true,
      M_bind_apply_ok h1, M_bind_apply_ok hrun, M_pure_apply]
    exact ⟨_, rfl⟩
  obtain ⟨res, hpo⟩ := hpo
  refine ⟨res, db', hpo, hseat, hos, htab, ?_⟩
  intro r hr hrno
  rw [hM] at hr
  obtain ⟨x, hx_mem, hx_eq⟩ := List.mem_map.mp hr
  by_cases hx : x.OrderNo = inp.orderNo.getD 0
  · rw [← hx_eq]
    simp [hx]
  · have hbx : (x.OrderNo == inp.orderNo.getD 0) = false := by simp [hx]
    rw [← hx_eq] at hrno ⊢
    rw [hbx] at hrno ⊢
    simp only [Bool.false_eq_true, if_false] at hrno ⊢
    exact absurd hrno hx

/-- Witness for the amended C2 at a concrete finalized order. -/
theorem C2_saled_update_freezes_seats_nulls_header_seat_witness :
    ∃ res db',
      processOrder exEnv none exInpUpd exDbSaled = (db', .ok res) ∧
      db'.tblSeat = exDbSaled.tblSeat ∧
      db'.tblOrder_Seats = exDbSaled.tblOrder_Seats ∧
      db'.tblTable = exDbSaled.tblTable ∧
      ∀ r ∈ db'.tblOrder_M, r.OrderNo = exInpUpd.orderNo.getD 0 → r.SeatId = none :=
  C2_saled_update_freezes_seats_nulls_header_seat exEnv exInpUpd exDbSaled
    { exOrder1 with Saled := "Yes" } rfl rfl rfl

end PosNode

namespace PosNode

theorem newSeatFlow_frame (env : Env) (inp : OrderInput)
    (option savedOrderNo tableId : Int) (db : DB) :
    ∃ seats oseats temps, newSeatFlow env inp option savedOrderNo tableId { db := db, fuel := none }
      = .ok ((), { db := { db with tblSeat := seats, tblOrder_Seats := oseats, tblTemp_Seats := temps }, fuel := none }) := by
  unfold newSeatFlow
  by_cases ho : (option == 2) = true
  · simp only [ho, if_true]
    rcases inp.selectedSeats with _ | l
    · obtain ⟨s', o', t', h⟩ := processStagedSeats_frame env savedOrderNo db
      exact ⟨s', o', t', h⟩
    · rcases l with _ | ⟨x, rest⟩
      · obtain ⟨s', o', t', h⟩ := processStagedSeats_frame env savedOrderNo db
        exact ⟨s', o', t', h⟩
      · obtain ⟨s', o', h⟩ := processSelectedSeatsNew_frame env savedOrderNo tableId (x :: rest) db
        exact ⟨s', o', db.tblTemp_Seats, h⟩
  · have ho' : (option == 2) = false := by
      cases h : (option == 2)
      · rfl
      · exact absurd h ho
    simp only [ho', Bool.false_eq_true, if_false, M_pure_apply]
    exact ⟨db.tblSeat, db.tblOrder_Seats, db.tblTemp_Seats, rfl⟩

theorem newTableFlow_frame (option tableId : Int) (db : DB) :
    ∃ tables, newTableFlow option tableId { db := db, fuel := none }
      = .ok ((), { db := { db with tblTable := tables }, fuel := none }) := by
  unfold newTableFlow
  by_cases hc : (tableId != 0 && option == 2) = true
  · simp only [hc, if_true, updateTableStatus_run]
    exact ⟨_, rfl⟩
  · have hc' : (tableId != 0 && option == 2) = false := by
      cases h : (tableId != 0 && option == 2)
      · rfl
      · exact absurd h hc
    simp only [hc', Bool.false_eq_true, if_false, M_pure_apply]
    exact ⟨db.tblTable, rfl⟩

theorem newHoldedFlow_frame (holdedOrder : Option Int) (db : DB) :
    ∃ tm td, newHoldedFlow holdedOrder { db := db, fuel := none }
      = .ok ((), { db := { db with tblTempOrder_M := tm, tblTempOrder_D := td }, fuel := none }) := by
  rcases holdedOrder with _ | n
  · exact ⟨db.tblTempOrder_M, db.tblTempOrder_D, rfl⟩
  · unfold newHoldedFlow
    by_cases hn : (n != 0) = true
    · simp only [hn, if_true, purgeHoldedOrder_run]
      exact ⟨_, _, rfl⟩
    · have hn' : (n != 0) = false := by
        cases h : (n != 0)
        · rfl
        · exact absurd h hn
      simp only [hn', Bool.false_eq_true, if_false, M_pure_apply]
      exact ⟨db.tblTempOrder_M, db.tblTempOrder_D, rfl⟩

theorem newOrderTail_frame (env : Env) (inp : OrderInput)
    (option savedOrderNo tableId : Int) (db : DB) :
    ∃ seats tables oseats temps tm td, newOrderTail env inp option savedOrderNo tableId { db := db, fuel := none }
      = .ok ((), { db := { db with tblSeat := seats, tblTable := tables, tblOrder_Seats := oseats, tblTemp_Seats := temps, tblTempOrder_M := tm, tblTempOrder_D := td }, fuel := none }) := by
  obtain ⟨s1, o1, t1, h1⟩ := newSeatFlow_frame env inp option savedOrderNo tableId db
  obtain ⟨tb2, h2⟩ := newTableFlow_frame option tableId
    { db with tblSeat := s1, tblOrder_Seats := o1, tblTemp_Seats := t1 }
  obtain ⟨m3, d3, h3⟩ := newHoldedFlow_frame inp.holdedOrder
    { db with tblSeat := s1, tblOrder_Seats := o1, tblTemp_Seats := t1, tblTable := tb2 }
  unfold newOrderTail
  simp only [M_bind_apply_ok h1, M_bind_apply_ok h2, h3]
  exact ⟨s1, tb2, o1, t1, m3, d3, rfl⟩

end PosNode

namespace PosNode

/-- Running the NEW branch with no fault: the generated order number is the
identity seed, one header row and one line/printer row per item appear, and
the blank printer labels are backfilled with the order default. -/
theorem newOrderBranch_run (env : Env) (inp : OrderInput)
    (option finalCustId deliveryBoyId tableId : Int) (total : Rat)
    (orderType : String) (db : DB)
    (hwfM : ∀ r ∈ db.tblOrder_M, r.OrderNo < db.orderIdentity) :
    ∃ db', newOrderBranch env inp option finalCustId deliveryBoyId tableId total orderType { db := db, fuel := none }
      = .ok (db.orderIdentity, { db := db', fuel := none }) ∧
      db'.tblOrder_M = db.tblOrder_M ++ [{ OrderNo := db.orderIdentity, EDate := inp.date, Time := inp.time, Options := option, CustId := finalCustId, CustName := inp.custName, Flat := inp.flatNo, Address := inp.address, Contact := inp.contact, DelBoy := deliveryBoyId, TableId := tableId, TableNo := inp.tableNo, Remarks := inp.remarks, Total := total, Saled := "No", Status := orderType, Prfx := inp.prfx, Pr := if inp.prfx != "" then inp.prfx ++ toString (maxOrderId db) else "", SeatId := getSeatIdForOrderMaster inp.selectedSeats }] ∧
      db'.tblOrder_D = db.tblOrder_D ++ inp.items.map (mkOrderD db.orderIdentity) ∧
      db'.tblPrinter = db.tblPrinter.filter (fun p => !(p.OrderNo == db.orderIdentity)) ++ inp.items.map (fun item => { OrderNo := db.orderIdentity, SlNo := item.slNo.getD 0, ItemId := item.itemCode.getD 0, Printer := jsOrStr (printeLookup db.tblItemMaster (item.itemCode.getD 0)) (jsOrStr env.ORDER_PRINTER "DefaultPrinter") }) := by
  have hderive : deriveOrderNo { db with tblOrder_M := db.tblOrder_M ++ [{ OrderNo := db.orderIdentity, EDate := inp.date, Time := inp.time, Options := option, CustId := finalCustId, CustName := inp.custName, Flat := inp.flatNo, Address := inp.address, Contact := inp.contact, DelBoy := deliveryBoyId, TableId := tableId, TableNo := inp.tableNo, Remarks := inp.remarks, Total := total, Saled := "No", Status := orderType, Prfx := inp.prfx, Pr := if inp.prfx != "" then inp.prfx ++ toString (maxOrderId db) else "", SeatId := getSeatIdForOrderMaster inp.selectedSeats }], orderIdentity := db.orderIdentity + 1 } inp.date inp.time finalCustId = some db.orderIdentity := by
    unfold deriveOrderNo
    simp only [List.filter_append, List.map_append]
    have hone : List.filter (fun r => r.EDate == inp.date && r.Time == inp.time && r.CustId == finalCustId) [({ OrderNo := db.orderIdentity, EDate := inp.date, Time := inp.time, Options := option, CustId := finalCustId, CustName := inp.custName, Flat := inp.flatNo, Address := inp.address, Contact := inp.contact, DelBoy := deliveryBoyId, TableId := tableId, TableNo := inp.tableNo, Remarks := inp.remarks, Total := total, Saled := "No", Status := orderType, Prfx := inp.prfx, Pr := if inp.prfx != "" then inp.prfx ++ toString (maxOrderId db) else "", SeatId := getSeatIdForOrderMaster inp.selectedSeats } : OrderM)] = [{ OrderNo := db.orderIdentity, EDate := inp.date, Time := inp.time, Options := option, CustId := finalCustId, CustName := inp.custName, Flat := inp.flatNo, Address := inp.address, Contact := inp.contact, DelBoy := deliveryBoyId, TableId := tableId, TableNo := inp.tableNo, Remarks := inp.remarks, Total := total, Saled := "No", Status := orderType, Prfx := inp.prfx, Pr := if inp.prfx != "" then inp.prfx ++ toString (maxOrderId db) else "", SeatId := getSeatIdForOrderMaster inp.selectedSeats }] := by
      simp
    rw [hone]
    apply maxOrderNoOpt_append_lt
    intro x hx
    obtain ⟨r, hr_mem, hr_eq⟩ := List.mem_map.mp hx
    rw [← hr_eq]
    exact hwfM r (List.mem_filter.mp hr_mem).1
  obtain ⟨s1, tb1, o1, t1, m1, d1, htail⟩ := newOrderTail_frame env inp option
    db.orderIdentity tableId
    { db with
      tblOrder_M := db.tblOrder_M ++ [{ OrderNo := db.orderIdentity, EDate := inp.date, Time := inp.time, Options := option, CustId := finalCustId, CustName := inp.custName, Flat := inp.flatNo, Address := inp.address, Contact := inp.contact, DelBoy := deliveryBoyId, TableId := tableId, TableNo := inp.tableNo, Remarks := inp.remarks, Total := total, Saled := "No", Status := orderType, Prfx := inp.prfx, Pr := if inp.prfx != "" then inp.prfx ++ toString (maxOrderId db) else "", SeatId := getSeatIdForOrderMaster inp.selectedSeats }],
      orderIdentity := db.orderIdentity + 1,
      tblOrder_D := db.tblOrder_D ++ inp.items.map (mkOrderD db.orderIdentity),
      tblPrinter := (db.tblPrinter.filter (fun p => !(p.OrderNo == db.orderIdentity)) ++ inp.items.map (fun item => ({ OrderNo := db.orderIdentity, SlNo := item.slNo.getD 0, ItemId := item.itemCode.getD 0, Printer := printeLookup db.tblItemMaster (item.itemCode.getD 0) } : PrinterRow))).map (fun p : PrinterRow => if p.Printer == "" && p.OrderNo == db.orderIdentity then { p with Printer := jsOrStr env.ORDER_PRINTER "DefaultPrinter" } else p) }
  unfold newOrderBranch
  simp only [M_bind_apply, sqlRun_fuelNone, hderive, M_pure_apply,
    insertOrderDetails_run, assignOrderPrinters_run, backfillOrderPrinters_run]
  rw [htail]
  refine ⟨_, rfl, rfl, rfl, ?_⟩
  rw [backfill_append]
  · rw [backfill_new_rows]
  · intro p hp
    have hmem := List.of_mem_filter hp
    revert hmem
    cases h : (p.OrderNo == db.orderIdentity) <;> simp

end PosNode

namespace PosNode

/-- C4: a valid NEW submission with a non-empty items list commits exactly
one header row for the new order, exactly `items.length` order-line rows and
exactly `items.length` printer-assignment rows carrying the new order id,
and the order id returned in the result is strictly greater than every order
id that existed before the submission. -/
theorem C4_new_order_counts (env : Env) (inp : OrderInput) (db : DB)
    (hst : inp.status = "NEW") (_hne : inp.items ≠ []) (hwf : ordersWf db) :
    ∃ res db',
      processOrder env none inp db = (db', .ok res) ∧
      db'.tblOrder_M.length = db.tblOrder_M.length + 1 ∧
      (db'.tblOrder_M.filter (fun r => r.OrderNo == res.orderNo)).length = 1 ∧
      (db'.tblOrder_D.filter (fun r => r.OrderNo == res.orderNo)).length = inp.items.length ∧
      (db'.tblPrinter.filter (fun p => p.OrderNo == res.orderNo)).length = inp.items.length ∧
      ∀ r ∈ db.tblOrder_M, r.OrderNo < res.orderNo := by
  obtain ⟨hwfM, hwfD, hwfP⟩ := hwf
  obtain ⟨cid, custs, seed, h1⟩ := hcm_run_none inp (inp.custId.getD 0) db
  obtain ⟨db', hrun, hM, hD, hP⟩ := newOrderBranch_run env inp
    (inp.option.getD 0) cid (inp.deliveryBoyId.getD 0) (inp.tableId.getD 0)
    (inp.total.getD 0) (orderTypeOf (inp.option.getD 0))
    { db with tblCustomer := custs, custIdentity := seed } hwfM
  have hpo : ∃ res, processOrder env none inp db = (db', .ok res)
      ∧ res.orderNo = db.orderIdentity := by
    unfold processOrder processOrderBody
    rw [hst]
    simp only [show (("NEW" : String) == "NEW") = true from rfl, if_true,
      M_bind_apply_ok h1, M_bind_apply_ok hrun, M_pure_apply]
    exact ⟨_, rfl, rfl⟩
  obtain ⟨res, hpo, hresno⟩ := hpo
  have hbeq_self : (db.orderIdentity == db.orderIdentity) = true := by simp
  refine ⟨res, db', hpo, ?_, ?_, ?_, ?_, ?_⟩
  · rw [hM]
    simp
  · rw [hM, hresno, List.filter_append]
    have hold : db.tblOrder_M.filter (fun r => r.OrderNo == db.orderIdentity) = [] := by
      rw [List.filter_eq_nil_iff]
      intro r hr
      have := hwfM r hr
      simp only [beq_iff_eq]
      omega
    rw [hold]
    simp
  · rw [hD, hresno, List.filter_append]
    have hold : db.tblOrder_D.filter (fun r => r.OrderNo == db.orderIdentity) = [] := by
      rw [List.filter_eq_nil_iff]
      intro r hr
      have := hwfD r hr
      simp only [beq_iff_eq]
      omega
    rw [hold]
    have hnew : (inp.items.map (mkOrderD db.orderIdentity)).filter
        (fun r => r.OrderNo == db.orderIdentity) = inp.items.map (mkOrderD db.orderIdentity) := by
      rw [List.filter_eq_self]
      intro a ha
      obtain ⟨it, _, hit⟩ := List.mem_map.mp ha
      rw [← hit]
      simp [mkOrderD]
    rw [hnew]
    simp
  · rw [hP, hresno, List.filter_append]
    have hold : (db.tblPrinter.filter (fun p => !(p.OrderNo == db.orderIdentity))).filter
        (fun p => p.OrderNo == db.orderIdentity) = [] := by
      rw [List.filter_eq_nil_iff]
      intro p hp
      have := List.of_mem_filter hp
      revert this
      cases h : (p.OrderNo == db.orderIdentity) <;> simp
    rw [hold]
    have hnew : (inp.items.map (fun item => ({ OrderNo := db.orderIdentity, SlNo := item.slNo.getD 0, ItemId := item.itemCode.getD 0, Printer := jsOrStr (printeLookup db.tblItemMaster (item.itemCode.getD 0)) (jsOrStr env.ORDER_PRINTER "DefaultPrinter") } : PrinterRow))).filter
        (fun p => p.OrderNo == db.orderIdentity)
        = inp.items.map (fun item => ({ OrderNo := db.orderIdentity, SlNo := item.slNo.getD 0, ItemId := item.itemCode.getD 0, Printer := jsOrStr (printeLookup db.tblItemMaster (item.itemCode.getD 0)) (jsOrStr env.ORDER_PRINTER "DefaultPrinter") } : PrinterRow)) := by
      rw [List.filter_eq_self]
      intro a ha
      obtain ⟨it, _, hit⟩ := List.mem_map.mp ha
      rw [← hit]
      simp
    rw [hnew]
    simp
  · intro r hr
    rw [hresno]
    exact hwfM r hr

/-- Witness for C4: the sample NEW DineIn submission against the small
database (identity seed 1, no existing orders). -/
theorem C4_new_order_counts_witness :
    ∃ res db',
      processOrder exEnv none exInpNew exDb = (db', .ok res) ∧
      db'.tblOrder_M.length = exDb.tblOrder_M.length + 1 ∧
      (db'.tblOrder_M.filter (fun r => r.OrderNo == res.orderNo)).length = 1 ∧
      (db'.tblOrder_D.filter (fun r => r.OrderNo == res.orderNo)).length = exInpNew.items.length ∧
      (db'.tblPrinter.filter (fun p => p.OrderNo == res.orderNo)).length = exInpNew.items.length ∧
      ∀ r ∈ exDb.tblOrder_M, r.OrderNo < res.orderNo :=
  C4_new_order_counts exEnv exInpNew exDb rfl (by decide)
    (by refine ⟨?_, ?_, ?_⟩ <;> intro r hr <;> simp [exDb] at hr)

end PosNode

namespace PosNode

theorem seatReassignMap_SeatId (ids : List Int) (tid : Int) (st : SeatRow) :
    (seatReassignMap ids tid st).SeatId = st.SeatId := by
  unfold seatReassignMap
  split <;> rfl

theorem seatReassignMap_TableId (ids : List Int) (tid : Int) (st : SeatRow) :
    (seatReassignMap ids tid st).TableId = st.TableId := by
  unfold seatReassignMap
  split <;> rfl

theorem seatReassignMap_SeatName (ids : List Int) (tid : Int) (st : SeatRow) :
    (seatReassignMap ids tid st).SeatName = st.SeatName := by
  unfold seatReassignMap
  split <;> rfl

theorem seatFind_map_reassign (ids : List Int) (tid : Int) (l : List SeatRow)
    (n t : Int) :
    seatFind (l.map (seatReassignMap ids tid)) n t
      = (seatFind l n t).map (seatReassignMap ids tid) := by
  induction l with
  | nil => rfl
  | cons a as ih =>
    unfold seatFind at ih ⊢
    simp only [List.map_cons, List.find?]
    rw [seatReassignMap_SeatId, seatReassignMap_TableId]
    cases h : (a.SeatId == n && a.TableId == t)
    · exact ih
    · rfl

theorem occupyMany_after_release (ids : List Int) (tid : Int) (st : SeatRow) :
    occupyMany ids tid (if st.TableId == tid then { st with Status := 0 } else st)
      = seatReassignMap ids tid st := by
  unfold occupyMany seatReassignMap
  by_cases ht : st.TableId = tid
  · simp only [ht, beq_self_eq_true, if_true, Bool.true_and]
    cases hc : ids.contains st.SeatId <;> simp
  · have hb : (st.TableId == tid) = false := by simp [ht]
    simp [hb]

end PosNode


namespace PosNode

theorem updSeatReassign_run (env : Env) (orderNo tid : Int) (s0 : Option Int)
    (rest : List (Option Int)) (htid : (tid != 0) = true) (db : DB) :
    updSeatReassign env orderNo tid (some (s0 :: rest)) { db := db, fuel := none }
      = .ok ((), { db := { db with tblSeat := db.tblSeat.map (seatReassignMap (validSeatIds (s0 :: rest)) tid), tblOrder_Seats := reassignedOrderSeats env orderNo tid (validSeatIds (s0 :: rest)) db }, fuel := none }) := by
  unfold updSeatReassign reassignedOrderSeats
  simp only [htid, if_true, M_bind_apply, sqlRun_fuelNone, occupySeatsLoop_run,
    insertOrderSeatsLoop_run, M_pure_apply]
  have hseats : (db.tblSeat.map (fun st =>
      if st.TableId == tid then { st with Status := 0 } else st)).map
        (occupyMany (validSeatIds (s0 :: rest)) tid)
      = db.tblSeat.map (seatReassignMap (validSeatIds (s0 :: rest)) tid) := by
    rw [List.map_map]
    apply List.map_congr_left
    intro st _
    exact occupyMany_after_release (validSeatIds (s0 :: rest)) tid st
  rw [hseats]
  have hfind : ∀ n : Int, seatFind (db.tblSeat.map (seatReassignMap (validSeatIds (s0 :: rest)) tid)) n tid
      = (seatFind db.tblSeat n tid).map (seatReassignMap (validSeatIds (s0 :: rest)) tid) :=
    fun n => seatFind_map_reassign (validSeatIds (s0 :: rest)) tid db.tblSeat n tid
  have hrows : ∀ n : Int,
      ((seatFind db.tblSeat n tid).map (seatReassignMap (validSeatIds (s0 :: rest)) tid)).map
        (fun sd => ({ OrderNo := orderNo, SeatName := sd.SeatName, SeatId := sd.SeatId,
                      TableId := sd.TableId, Status := 0,
                      Counter := jsOrStr env.COUNTER_NAME "DefaultCounter" } : OrderSeatRow))
      = (seatFind db.tblSeat n tid).map
        (fun sd => ({ OrderNo := orderNo, SeatName := sd.SeatName, SeatId := sd.SeatId,
                      TableId := sd.TableId, Status := 0,
                      Counter := jsOrStr env.COUNTER_NAME "DefaultCounter" } : OrderSeatRow)) := by
    intro n
    rcases h : seatFind db.tblSeat n tid with _ | sd
    · rfl
    · simp only [Option.map_some']
      rw [seatReassignMap_SeatName, seatReassignMap_SeatId, seatReassignMap_TableId]
  simp only [hfind, hrows]

end PosNode

namespace PosNode

theorem updatedOrderBranch_run_unsold (env : Env) (inp : OrderInput)
    (orderNo finalCustId deliveryBoyId tableId : Int) (total : Rat)
    (orderType : String) (db : DB) (curr : OrderM) (s0 : Option Int)
    (rest : List (Option Int))
    (hfind : db.tblOrder_M.find? (fun r => r.OrderNo == orderNo) = some curr)
    (hsaled : (curr.Saled == "Yes") = false)
    (htid : (tableId != 0) = true)
    (hsel : inp.selectedSeats = some (s0 :: rest)) :
    ∃ db', updatedOrderBranch env inp orderNo 2 finalCustId deliveryBoyId tableId total orderType { db := db, fuel := none }
      = .ok (orderNo, { db := db', fuel := none }) ∧
      db'.tblSeat = db.tblSeat.map (seatReassignMap (validSeatIds (s0 :: rest)) tableId) ∧
      db'.tblOrder_Seats = reassignedOrderSeats env orderNo tableId (validSeatIds (s0 :: rest)) db := by
  unfold updatedOrderBranch
  simp only [M_bind_apply, sqlRun_fuelNone, hfind, hsaled, Bool.not_false, if_true,
    hsel, htid, Bool.true_and, Bool.and_true,
    show ((2 : Int) == 2) = true from rfl,
    insertOrderDetails_run, assignOrderPrinters_run, backfillOrderPrinters_run,
    updSeatReassign_run env orderNo tableId s0 rest htid,
    updateTableStatus_run, M_pure_apply]
  exact ⟨_, rfl, rfl, rfl⟩

end PosNode

namespace PosNode

/-- Counterexample to C7 as stated: an UPDATED submission for a non-finalized
DineIn order that carries no `selectedSeats` array commits successfully while
leaving the order's occupied seat occupied and its old seat-assignment row in
place — no release, no deletion, no reassignment happens. -/
theorem C7_updated_no_seats_counterexample :
    (processOrder exEnv none exInpUpdNoSeats exDbOrder1).2.isOk = true
    ∧ (processOrder exEnv none exInpUpdNoSeats exDbOrder1).1.tblSeat.map (fun s => s.Status) = [1, 0]
    ∧ (processOrder exEnv none exInpUpdNoSeats exDbOrder1).1.tblOrder_Seats = exDbOrder1.tblOrder_Seats
    ∧ exDbOrder1.tblSeat.map (fun s => s.Status) = [1, 0] := ⟨rfl, rfl, rfl, rfl⟩

/-- C7 (amended): the UPDATED-branch seat reconciliation runs only when the
submission carries a non-empty `selectedSeats` array (and the order is DineIn,
not finalized, with a nonzero table id).  When it does run, every seat of the
submitted table ends occupied exactly when its id is among the valid selected
ids (the others are released), the order's previous seat-assignment rows are
deleted, and one row per valid selected seat id found in the seat master is
inserted from the master record's own label and table. -/
theorem C7_updated_unsold_seat_reassign (env : Env) (inp : OrderInput)
    (db : DB) (curr : OrderM) (s0 : Option Int) (rest : List (Option Int))
    (hst : inp.status = "UPDATED")
    (hfind : db.tblOrder_M.find? (fun r => r.OrderNo == inp.orderNo.getD 0) = some curr)
    (hsaled : curr.Saled ≠ "Yes")
    (hopt : inp.option.getD 0 = 2)
    (htid : inp.tableId.getD 0 ≠ 0)
    (hsel : inp.selectedSeats = some (s0 :: rest)) :
    ∃ res db',
      processOrder env none inp db = (db', .ok res) ∧
      db'.tblSeat = db.tblSeat.map (seatReassignMap (validSeatIds (s0 :: rest)) (inp.tableId.getD 0)) ∧
      db'.tblOrder_Seats = reassignedOrderSeats env (inp.orderNo.getD 0) (inp.tableId.getD 0) (validSeatIds (s0 :: rest)) db := by
  obtain ⟨cid, custs, seed, h1⟩ := hcm_run_none inp (inp.custId.getD 0) db
  have hsaledb : (curr.Saled == "Yes") = false := by simp [hsaled]
  have htidb : ((inp.tableId.getD 0) != 0) = true := by simp [htid]
  obtain ⟨db', hrun, hseat, hos⟩ := updatedOrderBranch_run_unsold env inp
    (inp.orderNo.getD 0) cid (inp.deliveryBoyId.getD 0) (inp.tableId.getD 0)
    (inp.total.getD 0) (orderTypeOf 2)
    { db with tblCustomer := custs, custIdentity := seed } curr s0 rest hfind hsaledb htidb hsel
  have hpo : ∃ res, processOrder env none inp db = (db', .ok res) := by
    unfold processOrder processOrderBody
    rw [hst]
    simp only [show (("UPDATED" : String) == "NEW") = false from rfl,
      show (("UPDATED" : String) == "UPDATED") = true from rfl,
      Bool.false_eq_true, if_false, if_true, hopt,
      M_bind_apply_ok h1, M_bind_apply_ok hrun, M_pure_apply]
    exact ⟨_, rfl⟩
  obtain ⟨res, hpo⟩ := hpo
  exact ⟨res, db', hpo, hseat, hos⟩

/-- Witness for the amended C7: the UPDATED resubmission of order 1 selecting
both seats of table 1 against the database where only seat 1 was occupied. -/
theorem C7_updated_unsold_seat_reassign_witness :
    ∃ res db',
      processOrder exEnv none exInpUpd exDbOrder1 = (db', .ok res) ∧
      db'.tblSeat = exDbOrder1.tblSeat.map (seatReassignMap (validSeatIds [some 1, some 2]) (exInpUpd.tableId.getD 0)) ∧
      db'.tblOrder_Seats = reassignedOrderSeats exEnv (exInpUpd.orderNo.getD 0) (exInpUpd.tableId.getD 0) (validSeatIds [some 1, some 2]) exDbOrder1 :=
  C7_updated_unsold_seat_reassign exEnv exInpUpd exDbOrder1 exOrder1 (some 1) [some 2]
    rfl rfl (by decide) rfl (by decide) rfl

end PosNode

namespace PosNode

theorem insertOrderDetails_coerce (n : Int) (items : List Item) :
    insertOrderDetails n (items.map coerceItemNums) = insertOrderDetails n items := by
  induction items with
  | nil => rfl
  | cons it rest ih =>
    show insertOrderDetails n (coerceItemNums it :: rest.map coerceItemNums)
      = insertOrderDetails n (it :: rest)
    unfold insertOrderDetails
    rw [ih]
    rfl

theorem insertKotDetails_coerce (n : Int) (items : List Item) :
    insertKotDetails n (items.map coerceItemNums) = insertKotDetails n items := by
  induction items with
  | nil => rfl
  | cons it rest ih =>
    show insertKotDetails n (coerceItemNums it :: rest.map coerceItemNums)
      = insertKotDetails n (it :: rest)
    unfold insertKotDetails
    rw [ih]
    rfl

theorem assignOrderPrinters_coerce (n : Int) (items : List Item) :
    assignOrderPrinters n (items.map coerceItemNums) = assignOrderPrinters n items := by
  induction items with
  | nil => rfl
  | cons it rest ih =>
    show assignOrderPrinters n (coerceItemNums it :: rest.map coerceItemNums)
      = assignOrderPrinters n (it :: rest)
    unfold assignOrderPrinters
    rw [ih]
    rfl

theorem assignKotPrinters_coerce (n : Int) (items : List Item) :
    assignKotPrinters n (items.map coerceItemNums) = assignKotPrinters n items := by
  induction items with
  | nil => rfl
  | cons it rest ih =>
    show assignKotPrinters n (coerceItemNums it :: rest.map coerceItemNums)
      = assignKotPrinters n (it :: rest)
    unfold assignKotPrinters
    rw [ih]
    rfl

theorem newOrderBranch_coerce (env : Env) (inp : OrderInput)
    (option finalCustId deliveryBoyId tableId : Int) (total : Rat) (orderType : String) :
    newOrderBranch env (coerceNums inp) option finalCustId deliveryBoyId tableId total orderType
      = newOrderBranch env inp option finalCustId deliveryBoyId tableId total orderType := by
  unfold newOrderBranch
  simp only [show (coerceNums inp).items = inp.items.map coerceItemNums from rfl,
    insertOrderDetails_coerce, assignOrderPrinters_coerce]
  rfl

theorem updatedOrderBranch_coerce (env : Env) (inp : OrderInput)
    (orderNo option finalCustId deliveryBoyId tableId : Int) (total : Rat) (orderType : String) :
    updatedOrderBranch env (coerceNums inp) orderNo option finalCustId deliveryBoyId tableId total orderType
      = updatedOrderBranch env inp orderNo option finalCustId deliveryBoyId tableId total orderType := by
  unfold updatedOrderBranch
  simp only [show (coerceNums inp).items = inp.items.map coerceItemNums from rfl,
    insertOrderDetails_coerce, assignOrderPrinters_coerce]
  rfl

theorem kotOrderBranch_coerce (env : Env) (inp : OrderInput)
    (orderNo option finalCustId deliveryBoyId tableId : Int) (total : Rat) (orderType : String) :
    kotOrderBranch env (coerceNums inp) orderNo option finalCustId deliveryBoyId tableId total orderType
      = kotOrderBranch env inp orderNo option finalCustId deliveryBoyId tableId total orderType := by
  unfold kotOrderBranch
  simp only [show (coerceNums inp).items = inp.items.map coerceItemNums from rfl,
    insertKotDetails_coerce, assignKotPrinters_coerce]
  rfl

theorem processOrderBody_coerce (env : Env) (inp : OrderInput) :
    processOrderBody env (coerceNums inp) = processOrderBody env inp := by
  unfold processOrderBody
  simp only [newOrderBranch_coerce, updatedOrderBranch_coerce, kotOrderBranch_coerce,
    show (coerceNums inp).items = inp.items.map coerceItemNums from rfl,
    List.length_map]
  rfl

end PosNode

namespace PosNode

/-- C10 (implicit): processOrder never fails on malformed numeric input —
replacing every unparsable numeric submission field (and every unparsable
numeric item field) by the explicit `|| 0` fallback value changes nothing
about the committed state or the outcome, under any fault schedule; and every
option value other than 1 and 2 (including the 0 a failed parse coerces to)
is recorded with the order-type label "TakeAway". -/
theorem C10_numeric_coercion_and_takeaway_default (env : Env) (fuel : Option Nat)
    (inp : OrderInput) (db : DB) :
    processOrder env fuel (coerceNums inp) db = processOrder env fuel inp db
    ∧ ∀ o : Int, o ≠ 1 → o ≠ 2 → orderTypeOf o = "TakeAway" := by
  constructor
  · unfold processOrder
    rw [processOrderBody_coerce]
  · intro o h1 h2
    unfold orderTypeOf
    simp [h1, h2]

/-- Witness for C10 at a concrete submission and a concrete non-{1,2} option
value. -/
theorem C10_numeric_coercion_and_takeaway_default_witness :
    processOrder exEnv none (coerceNums exInpNew) exDb = processOrder exEnv none exInpNew exDb
    ∧ orderTypeOf 5 = "TakeAway" :=
  ⟨(C10_numeric_coercion_and_takeaway_default exEnv none exInpNew exDb).1,
   (C10_numeric_coercion_and_takeaway_default exEnv none exInpNew exDb).2 5 (by decide) (by decide)⟩

end PosNode
